import Mathlib

/-!
# Order decision logic of `golangexamples/spaghetti_code.go`

A shallow embedding of `ProcessOrder`, of the `OrderProcessor` workflow and of
`ValidateUser`, and theorems about them; `DataProcessor.Process` of
`golangexamples/dead_code.go` follows in its own namespace.

Modelling conventions

* Go `string` is `String`, Go `int` is `Int` (the order id is only copied).
* `ProcessOrder` is embedded twice. In namespace `SpaghettiFloat` prices and
  the local `total` are Go `float64` values with the IEEE 754 binary64
  operations, as in the code. In namespace `Spaghetti` prices and `total` are
  exact rationals `ℚ` (the constants `0.8` and `0.9` are `4/5` and `9/10`):
  the idealisation for the statements that take prices as exact rationals,
  also used where the conclusion does not depend on rounding and at inputs
  where `float64` arithmetic is exact.
* `ProcessOrder` returns `*Order`; `nil` is `none`.
* The locals `total` and `status` are not part of the returned `Order`, so the
  embedding `ProcessOrderTrace` returns them next to the result, as they stand
  at the `return` statement that ends the call.
* A method on `*OrderProcessor` is a function from the processor before the
  call to the processor after it and the returned value; `counter++` and
  `retryCount++` wrap as Go `int` does on a 64-bit platform.
-/

namespace Spaghetti

/-- Go `type Item struct { Product string; Price float64 }`. -/
structure Item where
  Product : String
  Price : ℚ
deriving DecidableEq

/-- Go `type Order struct`. -/
structure Order where
  ID : Int
  Items : List Item
  UserType : String
  PaymentMethod : String
  DiscountCode : String
  ShippingMethod : String
  Status : String
deriving DecidableEq

/-- The loop `for _, item := range items { total += item.Price }`, started
with the current value of `total`. -/
def sumLoop (total : ℚ) (items : List Item) : ℚ :=
  items.foldl (fun t item => t + item.Price) total

/-- Control state after the tier branches (source lines 35-137): either a
`return nil` was executed inside them, or control falls through to the
shipping block; both carry the locals `total` and `status`. -/
inductive Flow where
  | returned (total : ℚ) (status : String)
  | fallthrough (total : ℚ) (status : String)
deriving DecidableEq

/-- Lines 35-137 of `ProcessOrder`: the nested tier / payment / discount
branches, starting from `status := ""` and `total := 0.0`. -/
def tierBranches (userType paymentMethod discountCode shippingMethod : String)
    (items : List Item) : Flow :=
  if userType = "premium" then
    if paymentMethod = "credit" then
      if items.length > 5 then
        let total := sumLoop 0 items
        if discountCode ≠ "" then
          if discountCode = "SAVE20" then
            Flow.fallthrough (total * (4 / 5)) "processing"
          else if discountCode = "SAVE10" then
            let total := total * (9 / 10)
            if shippingMethod = "express" then
              Flow.fallthrough (total + 20) "processing"
            else
              Flow.fallthrough (total + 5) "pending"
          else
            Flow.returned total "invalid_code"
        else
          if shippingMethod = "express" then
            Flow.fallthrough (total + 20) "processing"
          else
            Flow.fallthrough total "processing"
      else
        if discountCode ≠ "" then
          let total := sumLoop 0 items
          if discountCode = "SAVE20" then
            Flow.fallthrough (total * (4 / 5)) "processing"
          else
            Flow.fallthrough total "invalid_code"
        else
          let total := sumLoop 0 items
          Flow.fallthrough total "processing"
    else if paymentMethod = "paypal" then
      let total := sumLoop 0 items
      if total > 100 then
        if discountCode = "SAVE20" then
          Flow.fallthrough (total * (4 / 5)) "processing"
        else
          Flow.fallthrough total "processing"
      else
        Flow.fallthrough total "pending"
    else
      Flow.returned 0 "invalid_payment"
  else if userType = "regular" then
    if paymentMethod = "credit" then
      let total := sumLoop 0 items
      if discountCode ≠ "" then
        if discountCode = "SAVE10" then
          let total := total * (9 / 10)
          if items.length > 3 then
            Flow.fallthrough total "processing"
          else
            Flow.fallthrough total "pending"
        else
          Flow.fallthrough total "invalid_code"
      else
        if items.length > 3 then
          Flow.fallthrough total "processing"
        else
          Flow.fallthrough total "pending"
    else
      Flow.fallthrough 0 "cash_only_for_regular"
  else
    if paymentMethod = "credit" then
      let total := sumLoop 0 items
      Flow.fallthrough total "guest_order"
    else
      Flow.fallthrough 0 "invalid"

/-- Lines 139-154 of `ProcessOrder`: the shipping block, giving the new value
of `total`. -/
def shippingBlock (userType shippingMethod status : String) (total : ℚ) : ℚ :=
  if status = "processing" then
    if shippingMethod = "express" then
      if userType = "premium" then
        total
      else
        total + 20
    else if shippingMethod = "standard" then
      if total > 50 then
        total
      else
        total + 5
    else
      total
  else
    total

/-- Lines 156-175 of `ProcessOrder`: the final validation and the returned
pointer. -/
def finalValidation (orderID : Int)
    (userType paymentMethod discountCode shippingMethod : String)
    (items : List Item) (status : String) (total : ℚ) : Option Order :=
  if status ≠ "" then
    if status ≠ "invalid" then
      if total > 0 then
        if userType = "premium" ∨ userType = "regular" then
          some
            { ID := orderID
              Items := items
              UserType := userType
              PaymentMethod := paymentMethod
              DiscountCode := discountCode
              ShippingMethod := shippingMethod
              Status := status }
        else none
      else none
    else none
  else none

/-- What a call of `ProcessOrder` ends with: the locals `total` and `status`
at the executed `return`, and the returned pointer. -/
structure Outcome where
  total : ℚ
  status : String
  order : Option Order
deriving DecidableEq

/-- The whole body of `ProcessOrder`, keeping the locals at the return. -/
def ProcessOrderTrace (orderID : Int)
    (userType paymentMethod discountCode shippingMethod : String)
    (items : List Item) : Outcome :=
  match tierBranches userType paymentMethod discountCode shippingMethod items with
  | Flow.returned total status => { total := total, status := status, order := none }
  | Flow.fallthrough total status =>
    let total := shippingBlock userType shippingMethod status total
    { total := total
      status := status
      order := finalValidation orderID userType paymentMethod discountCode
        shippingMethod items status total }

/-- Go `func ProcessOrder(orderID int, userType, paymentMethod, discountCode,
shippingMethod string, items []Item) *Order`. -/
def ProcessOrder (orderID : Int)
    (userType paymentMethod discountCode shippingMethod : String)
    (items : List Item) : Option Order :=
  (ProcessOrderTrace orderID userType paymentMethod discountCode shippingMethod items).order

/-- The item list of `n` items each priced `p`. -/
def itemsOf (n : Nat) (p : ℚ) : List Item :=
  List.replicate n { Product := "Item", Price := p }

/-- The factor by which a call multiplies the price sum: `4/5` on the paths
that execute `total = total * 0.8`, `9/10` on the paths that execute
`total = total * 0.9`, and `1` on every other path (same branch conditions as
lines 35-137 of `ProcessOrder`). -/
def appliedFactor (userType paymentMethod discountCode : String)
    (items : List Item) : ℚ :=
  if userType = "premium" then
    if paymentMethod = "credit" then
      if items.length > 5 then
        if discountCode ≠ "" then
          if discountCode = "SAVE20" then 4 / 5
          else if discountCode = "SAVE10" then 9 / 10
          else 1
        else 1
      else
        if discountCode ≠ "" then
          if discountCode = "SAVE20" then 4 / 5 else 1
        else 1
    else if paymentMethod = "paypal" then
      if sumLoop 0 items > 100 then
        if discountCode = "SAVE20" then 4 / 5 else 1
      else 1
    else 1
  else if userType = "regular" then
    if paymentMethod = "credit" then
      if discountCode ≠ "" then
        if discountCode = "SAVE10" then 9 / 10 else 1
      else 1
    else 1
  else 1

/-! ## The workflow processor `OrderProcessor` -/

/-- A Go `interface{}` value as `Process` sees it: the nil interface, a
string, or any other dynamic value, which the code only stores, returns and
renders with `%v`; such a value is kept as its `%v` rendering. -/
inductive Value where
  | nil
  | str (s : String)
  | other (rendering : String)
deriving DecidableEq

/-- What `%v` prints for a value (`<nil>` for the nil interface). -/
def render : Value → String
  | Value.nil => "<nil>"
  | Value.str s => s
  | Value.other r => r

/-- Go `fmt.Sprintf("%v%v", a, b)`. -/
def sprintfVV (a b : Value) : String :=
  render a ++ render b

/-- Go `int` arithmetic result on a 64-bit platform: the value wrapped into
the range from `-2^63` to `2^63 - 1`. -/
def wrapInt (x : Int) : Int :=
  (x + 9223372036854775808) % 18446744073709551616 - 9223372036854775808

/-- Go `type OrderProcessor struct`. -/
structure OrderProcessor where
  state : String
  tempValue : Value
  flag1 : Bool
  flag2 : Bool
  counter : Int
  retryCount : Int
deriving DecidableEq

/-- Go `func NewOrderProcessor() *OrderProcessor`: state "init", counter 0,
every other field at its zero value. -/
def NewOrderProcessor : OrderProcessor :=
  { state := "init"
    tempValue := Value.nil
    flag1 := false
    flag2 := false
    counter := 0
    retryCount := 0 }

/-- Go `func (op *OrderProcessor) handleReady() interface{}`: the processor
after the call and the returned value. -/
def handleReady (op : OrderProcessor) : OrderProcessor × Value :=
  if op.flag1 && op.flag2 then
    ({ op with state := "done" }, op.tempValue)
  else if op.flag1 then
    ({ op with state := "loading" }, Value.nil)
  else
    (op, Value.nil)

/-- Go `func (op *OrderProcessor) handleLoading() interface{}`. -/
def handleLoading (op : OrderProcessor) : OrderProcessor × Value :=
  if op.counter > 7 then
    handleReady { op with flag2 := true, state := "ready" }
  else
    (op, Value.nil)

/-- Go `func (op *OrderProcessor) handleProcessing() interface{}`. -/
def handleProcessing (op : OrderProcessor) : OrderProcessor × Value :=
  if op.tempValue ≠ Value.nil then
    if op.counter > 5 then
      if op.flag1 then
        (op, op.tempValue)
      else (op, Value.nil)
    else (op, Value.nil)
  else (op, Value.nil)

/-- Go `func (op *OrderProcessor) handleRetrying() interface{}`. -/
def handleRetrying (op : OrderProcessor) : OrderProcessor × Value :=
  if op.retryCount > 0 then
    if op.retryCount < 3 then
      handleProcessing op
    else (op, Value.nil)
  else (op, Value.nil)

/-- Go `func (op *OrderProcessor) handleComplete() interface{}`. -/
def handleComplete (op : OrderProcessor) : OrderProcessor × Value :=
  (op, op.tempValue)

/-- Go `func (op *OrderProcessor) Process(data interface{}) interface{}`: the
processor after the call and the returned value (`Value.nil` for `nil`). -/
def Process (op : OrderProcessor) (data : Value) : OrderProcessor × Value :=
  if op.state = "init" then
    let op := { op with
      tempValue := data
      state := "loading"
      flag1 := true
      counter := wrapInt (op.counter + 1) }
    if op.counter > 5 then
      handleReady { op with flag2 := true, state := "ready" }
    else
      handleLoading op
  else if op.state = "loading" then
    if op.flag1 then
      let op := { op with tempValue := Value.str (sprintfVV op.tempValue data) }
      if op.flag2 then
        handleProcessing { op with state := "processing" }
      else
        let op := { op with counter := wrapInt (op.counter + 1) }
        if op.counter > 10 then
          ({ op with state := "error" }, Value.nil)
        else
          handleLoading op
    else (op, Value.nil)
  else if op.state = "processing" then
    if op.flag1 && op.flag2 then
      if op.retryCount < 3 then
        handleRetrying { op with
          retryCount := wrapInt (op.retryCount + 1)
          state := "retrying" }
      else
        handleComplete { op with state := "complete" }
    else (op, Value.nil)
  else if op.state = "retrying" then
    if op.retryCount ≥ 3 then
      ({ op with state := "failed" }, Value.nil)
    else
      handleProcessing { op with state := "processing" }
  else (op, Value.nil)

/-- Successive `Process` calls on one processor, one per input, in order: the
processor after the last call. -/
def runProcess (op : OrderProcessor) (inputs : List Value) : OrderProcessor :=
  inputs.foldl (fun o d => (Process o d).1) op

/-- The values returned by successive `Process` calls on one processor, one
per input, in order. -/
def processResults (op : OrderProcessor) : List Value → List Value
  | [] => []
  | d :: ds => (Process op d).2 :: processResults (Process op d).1 ds

/-- Go `func ValidateUser(username, password, email, userType string, age int,
country string) (bool, string)`; `len` of a string is its length in bytes. -/
def ValidateUser (username password email userType : String) (age : Int)
    (country : String) : Bool × String :=
  if username ≠ "" then
    if username.utf8ByteSize ≥ 3 then
      if username.utf8ByteSize ≤ 20 then
        if password ≠ "" then
          if password.utf8ByteSize ≥ 8 then
            if email ≠ "" then
              if userType = "admin" then
                if age ≥ 21 then
                  if country = "US" ∨ country = "UK" then
                    (true, "valid")
                  else (false, "admin must be in US or UK")
                else (false, "admin must be 21+")
              else if userType = "regular" then
                if age ≥ 18 then
                  if country ≠ "" then
                    (true, "valid")
                  else (false, "country required")
                else (false, "must be 18+")
              else
                if age ≥ 13 then
                  (true, "valid")
                else (false, "must be 13+")
            else (false, "email required")
          else (false, "password too short")
        else (false, "password required")
      else (false, "username too long")
    else (false, "username too short")
  else (false, "username required")

end Spaghetti

/-! ## `DataProcessor` of `golangexamples/dead_code.go`

A Go slice of `int` is a `List Int`; a run-time panic (index out of range) is
`none`; `v * 2` wraps as Go `int` does on a 64-bit platform. -/

namespace DeadCode

/-- Go `type DataProcessor struct`. -/
structure DataProcessor where
  unusedCounter : Int
  legacyFlag : Bool
deriving DecidableEq

/-- Go `result[i] = v`: the slice after the assignment, or `none` when the
index is out of range. -/
def setIndex (result : List Int) (i : Nat) (v : Int) : Option (List Int) :=
  if i < result.length then some (result.set i v) else none

/-- Go `result[i]`: the element, or `none` when the index is out of range. -/
def getIndex (result : List Int) (i : Nat) : Option Int :=
  result.get? i

/-- The loop `for i, v := range data { result[i] = v * 2 }`, from index `i`
on, over the rest `data` of the input. -/
def doubleLoopFrom (i : Nat) (data : List Int) (result : List Int) : Option (List Int) :=
  match data with
  | [] => some result
  | v :: rest =>
    match setIndex result i (Spaghetti.wrapInt (v * 2)) with
    | none => none
    | some result => doubleLoopFrom (i + 1) rest result

/-- Go `func (dp *DataProcessor) fallbackProcess(data []int) []int`. -/
def DataProcessor.fallbackProcess (_dp : DataProcessor) (data : List Int) : List Int :=
  data

/-- Go `func (dp *DataProcessor) Process(data []int) []int`: the returned
slice, or `none` when the call panics. -/
def DataProcessor.Process (dp : DataProcessor) (data : List Int) : Option (List Int) :=
  match doubleLoopFrom 0 data (List.replicate data.length 0) with
  | none => none
  | some result =>
    if data.length < 0 then
      some []
    else
      match getIndex result 0 with
      | none => none
      | some r0 =>
        let _tempValue := Spaghetti.wrapInt (r0 * 3)
        if result.length > 0 then
          some result
        else
          some (dp.fallbackProcess data)

end DeadCode

/-! ## `ProcessOrder` with `float64` arithmetic

The same function as in `Spaghetti`, with prices and `total` as Go `float64`
values and `+`, `*`, `>` as the IEEE 754 binary64 operations (round to nearest,
ties to even). -/

namespace SpaghettiFloat

/-- A Go `float64` value: a finite value `(-1)^neg * m * 2^e` (with `m` odd, or
`m = 0` and `e = 0` for the two zeros), an infinity, or NaN. -/
inductive Float64 where
  | finite (neg : Bool) (m : Nat) (e : Int)
  | inf (neg : Bool)
  | nan
deriving DecidableEq

namespace Float64

/-- Number of binary digits of `n`, with `fuel` at least that number. -/
def bitLengthAux : Nat → Nat → Nat
  | 0, _ => 0
  | fuel + 1, n => if n = 0 then 0 else bitLengthAux fuel (n / 2) + 1

/-- Number of binary digits of `n` (0 for 0). -/
def bitLength (n : Nat) : Nat :=
  bitLengthAux n n

/-- Removes trailing zero bits of `m`, keeping the value `m * 2^e`. -/
def stripZeros : Nat → Nat → Int → Nat × Int
  | 0, m, e => (m, e)
  | fuel + 1, m, e =>
    if m ≠ 0 ∧ m % 2 = 0 then stripZeros fuel (m / 2) (e + 1) else (m, e)

/-- The finite value `(-1)^neg * m * 2^e` in its unique form. -/
def normal (neg : Bool) (m : Nat) (e : Int) : Float64 :=
  if m = 0 then finite neg 0 0
  else finite neg (stripZeros (bitLength m) m e).1 (stripZeros (bitLength m) m e).2

/-- The `float64` nearest to the exact value `(-1)^neg * m * 2^e`, ties to
even: 53 significant bits, last bit not below `2^-1074`, infinity from
`2^1024` on. -/
def round (neg : Bool) (m : Nat) (e : Int) : Float64 :=
  if m = 0 then finite neg 0 0
  else
    let q : Int := max ((bitLength m : Int) - 1 + e - 52) (-1074)
    if e ≥ q then
      if (bitLength m : Int) + e > 1024 then inf neg else normal neg m e
    else
      let shift : Nat := (q - e).toNat
      let k := m / 2 ^ shift
      let r := m % 2 ^ shift
      let half := 2 ^ (shift - 1)
      let k' := if r > half ∨ (r = half ∧ k % 2 = 1) then k + 1 else k
      if (bitLength k' : Int) + q > 1024 then inf neg else normal neg k' q

/-- The integer `(-1)^neg * m * 2^(e - k)`, for `k ≤ e`. -/
def signed (neg : Bool) (m : Nat) (e k : Int) : Int :=
  if neg then -((m * 2 ^ (e - k).toNat : Nat) : Int) else ((m * 2 ^ (e - k).toNat : Nat) : Int)

/-- Go `a + b` on `float64`. -/
def add : Float64 → Float64 → Float64
  | nan, _ => nan
  | _, nan => nan
  | inf s, inf t => if s = t then inf s else nan
  | inf s, finite _ _ _ => inf s
  | finite _ _ _, inf t => inf t
  | finite s m e, finite t n f =>
    let c := signed s m e (min e f) + signed t n f (min e f)
    if c = 0 then finite (s && t) 0 0
    else round (decide (c < 0)) c.natAbs (min e f)

/-- Go `a * b` on `float64`. -/
def mul : Float64 → Float64 → Float64
  | nan, _ => nan
  | _, nan => nan
  | inf s, inf t => inf (xor s t)
  | inf s, finite t n _ => if n = 0 then nan else inf (xor s t)
  | finite s m _, inf t => if m = 0 then nan else inf (xor s t)
  | finite s m e, finite t n f => round (xor s t) (m * n) (e + f)

/-- Go `a > b` on `float64` (false when either side is NaN). -/
def gt : Float64 → Float64 → Bool
  | nan, _ => false
  | _, nan => false
  | inf s, inf t => !s && t
  | inf s, finite _ _ _ => !s
  | finite _ _ _, inf t => t
  | finite s m e, finite t n f =>
    decide (signed s m e (min e f) > signed t n f (min e f))

/-- The `float64` of an integer constant such as `20` or `100`. -/
def ofInt (n : Int) : Float64 :=
  round (decide (n < 0)) n.natAbs 0

/-- The Go constant `0.0`. -/
def zero : Float64 :=
  finite false 0 0

/-- The Go constant `0.8` as a `float64`: `3602879701896397 * 2^-52`
(hexadecimal `0x1.999999999999ap-1`). -/
def c0_8 : Float64 :=
  finite false 3602879701896397 (-52)

/-- The Go constant `0.9` as a `float64`: `8106479329266893 * 2^-53`
(hexadecimal `0x1.ccccccccccccdp-1`). -/
def c0_9 : Float64 :=
  finite false 8106479329266893 (-53)

end Float64

/-- Go `type Item struct { Product string; Price float64 }`. -/
structure Item where
  Product : String
  Price : Float64
deriving DecidableEq

/-- Go `type Order struct`. -/
structure Order where
  ID : Int
  Items : List Item
  UserType : String
  PaymentMethod : String
  DiscountCode : String
  ShippingMethod : String
  Status : String
deriving DecidableEq

/-- The loop `for _, item := range items { total += item.Price }`, started
with the current value of `total`. -/
def sumLoop (total : Float64) (items : List Item) : Float64 :=
  items.foldl (fun t item => Float64.add t item.Price) total

/-- Control state after the tier branches (source lines 35-137): either a
`return nil` was executed inside them, or control falls through to the
shipping block; both carry the locals `total` and `status`. -/
inductive Flow where
  | returned (total : Float64) (status : String)
  | fallthrough (total : Float64) (status : String)
deriving DecidableEq

/-- Lines 35-137 of `ProcessOrder`: the nested tier / payment / discount
branches, starting from `status := ""` and `total := 0.0`. -/
def tierBranches (userType paymentMethod discountCode shippingMethod : String)
    (items : List Item) : Flow :=
  if userType = "premium" then
    if paymentMethod = "credit" then
      if items.length > 5 then
        let total := sumLoop Float64.zero items
        if discountCode ≠ "" then
          if discountCode = "SAVE20" then
            Flow.fallthrough (Float64.mul total Float64.c0_8) "processing"
          else if discountCode = "SAVE10" then
            let total := Float64.mul total Float64.c0_9
            if shippingMethod = "express" then
              Flow.fallthrough (Float64.add total (Float64.ofInt 20)) "processing"
            else
              Flow.fallthrough (Float64.add total (Float64.ofInt 5)) "pending"
          else
            Flow.returned total "invalid_code"
        else
          if shippingMethod = "express" then
            Flow.fallthrough (Float64.add total (Float64.ofInt 20)) "processing"
          else
            Flow.fallthrough total "processing"
      else
        if discountCode ≠ "" then
          let total := sumLoop Float64.zero items
          if discountCode = "SAVE20" then
            Flow.fallthrough (Float64.mul total Float64.c0_8) "processing"
          else
            Flow.fallthrough total "invalid_code"
        else
          let total := sumLoop Float64.zero items
          Flow.fallthrough total "processing"
    else if paymentMethod = "paypal" then
      let total := sumLoop Float64.zero items
      if Float64.gt total (Float64.ofInt 100) then
        if discountCode = "SAVE20" then
          Flow.fallthrough (Float64.mul total Float64.c0_8) "processing"
        else
          Flow.fallthrough total "processing"
      else
        Flow.fallthrough total "pending"
    else
      Flow.returned Float64.zero "invalid_payment"
  else if userType = "regular" then
    if paymentMethod = "credit" then
      let total := sumLoop Float64.zero items
      if discountCode ≠ "" then
        if discountCode = "SAVE10" then
          let total := Float64.mul total Float64.c0_9
          if items.length > 3 then
            Flow.fallthrough total "processing"
          else
            Flow.fallthrough total "pending"
        else
          Flow.fallthrough total "invalid_code"
      else
        if items.length > 3 then
          Flow.fallthrough total "processing"
        else
          Flow.fallthrough total "pending"
    else
      Flow.fallthrough Float64.zero "cash_only_for_regular"
  else
    if paymentMethod = "credit" then
      let total := sumLoop Float64.zero items
      Flow.fallthrough total "guest_order"
    else
      Flow.fallthrough Float64.zero "invalid"

/-- Lines 139-154 of `ProcessOrder`: the shipping block, giving the new value
of `total`. -/
def shippingBlock (userType shippingMethod status : String) (total : Float64) : Float64 :=
  if status = "processing" then
    if shippingMethod = "express" then
      if userType = "premium" then
        total
      else
        Float64.add total (Float64.ofInt 20)
    else if shippingMethod = "standard" then
      if Float64.gt total (Float64.ofInt 50) then
        total
      else
        Float64.add total (Float64.ofInt 5)
    else
      total
  else
    total

/-- Lines 156-175 of `ProcessOrder`: the final validation and the returned
pointer. -/
def finalValidation (orderID : Int)
    (userType paymentMethod discountCode shippingMethod : String)
    (items : List Item) (status : String) (total : Float64) : Option Order :=
  if status ≠ "" then
    if status ≠ "invalid" then
      if Float64.gt total (Float64.ofInt 0) then
        if userType = "premium" ∨ userType = "regular" then
          some
            { ID := orderID
              Items := items
              UserType := userType
              PaymentMethod := paymentMethod
              DiscountCode := discountCode
              ShippingMethod := shippingMethod
              Status := status }
        else none
      else none
    else none
  else none

/-- What a call of `ProcessOrder` ends with: the locals `total` and `status`
at the executed `return`, and the returned pointer. -/
structure Outcome where
  total : Float64
  status : String
  order : Option Order
deriving DecidableEq

/-- The whole body of `ProcessOrder`, keeping the locals at the return. -/
def ProcessOrderTrace (orderID : Int)
    (userType paymentMethod discountCode shippingMethod : String)
    (items : List Item) : Outcome :=
  match tierBranches userType paymentMethod discountCode shippingMethod items with
  | Flow.returned total status => { total := total, status := status, order := none }
  | Flow.fallthrough total status =>
    let total := shippingBlock userType shippingMethod status total
    { total := total
      status := status
      order := finalValidation orderID userType paymentMethod discountCode
        shippingMethod items status total }

/-- Go `func ProcessOrder(orderID int, userType, paymentMethod, discountCode,
shippingMethod string, items []Item) *Order`. -/
def ProcessOrder (orderID : Int)
    (userType paymentMethod discountCode shippingMethod : String)
    (items : List Item) : Option Order :=
  (ProcessOrderTrace orderID userType paymentMethod discountCode shippingMethod items).order

/-- The item list of `n` items each priced `p`. -/
def itemsOf (n : Nat) (p : Float64) : List Item :=
  List.replicate n { Product := "Item", Price := p }

/-- The constant by which a call multiplies the price sum, if it does: `0.8`
on the paths that execute `total = total * 0.8`, `0.9` on the paths that
execute `total = total * 0.9`, none on every other path (same branch
conditions as lines 35-137 of `ProcessOrder`). -/
def appliedFactor (userType paymentMethod discountCode : String)
    (items : List Item) : Option Float64 :=
  if userType = "premium" then
    if paymentMethod = "credit" then
      if items.length > 5 then
        if discountCode ≠ "" then
          if discountCode = "SAVE20" then some Float64.c0_8
          else if discountCode = "SAVE10" then some Float64.c0_9
          else none
        else none
      else
        if discountCode ≠ "" then
          if discountCode = "SAVE20" then some Float64.c0_8 else none
        else none
    else if paymentMethod = "paypal" then
      if Float64.gt (sumLoop Float64.zero items) (Float64.ofInt 100) then
        if discountCode = "SAVE20" then some Float64.c0_8 else none
      else none
    else none
  else if userType = "regular" then
    if paymentMethod = "credit" then
      if discountCode ≠ "" then
        if discountCode = "SAVE10" then some Float64.c0_9 else none
      else none
    else none
  else none

/-- The discounted subtotal of a call: the price sum the loop computes, times
the applied constant where one is applied. -/
def discountedSubtotal (userType paymentMethod discountCode : String)
    (items : List Item) : Float64 :=
  match appliedFactor userType paymentMethod discountCode items with
  | some f => Float64.mul (sumLoop Float64.zero items) f
  | none => sumLoop Float64.zero items

/-- The constant a discount code stands for in the source: `"SAVE20"` is
`total * 0.8`, `"SAVE10"` is `total * 0.9`; no other code has one. -/
def codeFactor (discountCode : String) : Option Float64 :=
  if discountCode = "SAVE20" then some Float64.c0_8
  else if discountCode = "SAVE10" then some Float64.c0_9
  else none

end SpaghettiFloat

namespace Spaghetti

/-! ## Auxiliary facts -/

theorem sumLoop_eq (items : List Item) (t : ℚ) :
    sumLoop t items = t + (items.map Item.Price).sum := by
  induction items generalizing t with
  | nil => simp [sumLoop]
  | cons a as ih =>
    have h := ih (t + a.Price)
    simp only [sumLoop, List.foldl_cons, List.map_cons, List.sum_cons] at h ⊢
    rw [h]; ring

theorem sumLoop_zero (items : List Item) :
    sumLoop 0 items = (items.map Item.Price).sum := by
  rw [sumLoop_eq]; ring

theorem sum_itemsOf (n : Nat) (p : ℚ) :
    ((itemsOf n p).map Item.Price).sum = n * p := by
  simp [itemsOf]

theorem length_itemsOf (n : Nat) (p : ℚ) : (itemsOf n p).length = n := by
  simp [itemsOf]

theorem sum_nonneg_of_prices (items : List Item) (h : ∀ it ∈ items, 0 ≤ it.Price) :
    0 ≤ (items.map Item.Price).sum := by
  apply List.sum_nonneg
  intro x hx
  obtain ⟨it, hit, rfl⟩ := List.mem_map.mp hx
  exact h it hit

/-- An order is returned only at the last `return`, with the status local
as its Status, a positive total and a premium or regular user. -/
theorem processOrder_eq_some {orderID : Int}
    {userType paymentMethod discountCode shippingMethod : String} {items : List Item}
    {o : Order}
    (h : ProcessOrder orderID userType paymentMethod discountCode shippingMethod items
      = some o) :
    o =
      { ID := orderID
        Items := items
        UserType := userType
        PaymentMethod := paymentMethod
        DiscountCode := discountCode
        ShippingMethod := shippingMethod
        Status := (ProcessOrderTrace orderID userType paymentMethod discountCode
          shippingMethod items).status } ∧
    0 < (ProcessOrderTrace orderID userType paymentMethod discountCode shippingMethod
      items).total ∧
    (userType = "premium" ∨ userType = "regular") := by
  unfold ProcessOrder ProcessOrderTrace at h
  unfold ProcessOrderTrace
  cases hf : tierBranches userType paymentMethod discountCode shippingMethod items with
  | returned t st => rw [hf] at h; simp at h
  | fallthrough t st =>
    rw [hf] at h
    simp only [finalValidation] at h ⊢
    split_ifs at h with h1 h2 h3 h4
    all_goals simp_all

/-! ## Payment validity -/

/-- C1: a payment method that is not acceptable for the tier (premium: neither
credit nor paypal; regular: neither credit nor cash; any other user type: not
credit) makes `ProcessOrder` return nil, whatever the items, the discount code
and the shipping method. -/
theorem processOrder_invalid_payment_nil (orderID : Int)
    (userType paymentMethod discountCode shippingMethod : String) (items : List Item)
    (h : (userType = "premium" ∧ paymentMethod ≠ "credit" ∧ paymentMethod ≠ "paypal") ∨
         (userType = "regular" ∧ paymentMethod ≠ "credit" ∧ paymentMethod ≠ "cash") ∨
         (userType ≠ "premium" ∧ userType ≠ "regular" ∧ paymentMethod ≠ "credit")) :
    ProcessOrder orderID userType paymentMethod discountCode shippingMethod items = none := by
  rcases h with ⟨h1, h2, h3⟩ | ⟨h1, h2, h3⟩ | ⟨h1, h2, h3⟩ <;>
    simp [ProcessOrder, ProcessOrderTrace, tierBranches, shippingBlock, finalValidation, *]

/-- C1 at a guest paying by paypal (scenario 3 of the specification). -/
theorem processOrder_invalid_payment_nil_witness :
    ProcessOrder 3 "guest" "paypal" "" "standard" (itemsOf 2 10) = none :=
  processOrder_invalid_payment_nil 3 "guest" "paypal" "" "standard" (itemsOf 2 10)
    (Or.inr (Or.inr ⟨by decide, by decide, by decide⟩))

/-! ## Discount codes -/

/-- C3, the code at the failing input: a premium user paying by credit for one
item priced 10 with the unknown code SAVE99 gets an order back, with Status
"invalid_code", where the branch for more than 5 items returns nil. -/
theorem processOrder_unknown_code_returns_order :
    ProcessOrder 1 "premium" "credit" "SAVE99" "standard" [⟨"Item1", 10⟩] =
      some
        { ID := 1
          Items := [⟨"Item1", 10⟩]
          UserType := "premium"
          PaymentMethod := "credit"
          DiscountCode := "SAVE99"
          ShippingMethod := "standard"
          Status := "invalid_code" } ∧
    ProcessOrder 1 "premium" "credit" "SAVE99" "standard" (itemsOf 6 10) = none := by
  constructor
  · simp [ProcessOrder, ProcessOrderTrace, tierBranches, shippingBlock, finalValidation, sumLoop]
  · simp [ProcessOrder, ProcessOrderTrace, tierBranches, length_itemsOf]

/-! ## Shipping -/

/-- C6, the code at the failing input: a premium user paying by credit for six
items priced 10, no code, express shipping, is charged the express surcharge:
no discount is applied, the price sum is 60, the total is 60 + 20 = 80 and the
order is returned; with five items the same request costs 50. -/
theorem premium_bulk_express_charged :
    (ProcessOrderTrace 1 "premium" "credit" "" "express" (itemsOf 6 10)).total = 80 ∧
    ProcessOrder 1 "premium" "credit" "" "express" (itemsOf 6 10) =
      some
        { ID := 1
          Items := itemsOf 6 10
          UserType := "premium"
          PaymentMethod := "credit"
          DiscountCode := ""
          ShippingMethod := "express"
          Status := "processing" } ∧
    appliedFactor "premium" "credit" "" (itemsOf 6 10) = 1 ∧
    (ProcessOrderTrace 1 "premium" "credit" "" "express" (itemsOf 5 10)).total = 50 ∧
    ((itemsOf 6 10).map Item.Price).sum = 60 := by
  refine ⟨?_, ?_, ?_, ?_, by rw [sum_itemsOf]; norm_num⟩
  · simp only [ProcessOrderTrace, tierBranches, sumLoop_zero, sum_itemsOf, length_itemsOf]
    simp [shippingBlock]
    norm_num
  · simp only [ProcessOrder, ProcessOrderTrace, tierBranches, sumLoop_zero, sum_itemsOf,
      length_itemsOf]
    simp [shippingBlock, finalValidation]
    norm_num
  · simp [appliedFactor]
  · simp only [ProcessOrderTrace, tierBranches, sumLoop_zero, sum_itemsOf, length_itemsOf]
    simp [shippingBlock]
    norm_num

/-! ## Status assignment -/

/-- C8, refuted as stated: no single item count T decides the status of the
credit orders without discount code for both premium and regular. With one
item priced 10 a premium order is processing and a regular order is pending. -/
theorem no_common_bulk_threshold :
    ¬ ∃ T : Nat, ∀ (orderID : Int) (userType shippingMethod : String) (items : List Item)
        (o : Order),
        (userType = "premium" ∨ userType = "regular") →
        ProcessOrder orderID userType "credit" "" shippingMethod items = some o →
        (T ≤ items.length → o.Status = "processing") ∧
        (items.length < T → o.Status = "pending") := by
  rintro ⟨T, hT⟩
  have hp : ProcessOrder 1 "premium" "credit" "" "standard" (itemsOf 1 10) =
      some ⟨1, itemsOf 1 10, "premium", "credit", "", "standard", "processing"⟩ := by
    simp only [ProcessOrder, ProcessOrderTrace, tierBranches, sumLoop_zero, sum_itemsOf,
      length_itemsOf]
    simp [shippingBlock, finalValidation]
    norm_num
  have hr : ProcessOrder 1 "regular" "credit" "" "standard" (itemsOf 1 10) =
      some ⟨1, itemsOf 1 10, "regular", "credit", "", "standard", "pending"⟩ := by
    simp only [ProcessOrder, ProcessOrderTrace, tierBranches, sumLoop_zero, sum_itemsOf,
      length_itemsOf]
    simp [shippingBlock, finalValidation]
  have h1 := hT 1 "premium" "standard" (itemsOf 1 10) _ (Or.inl rfl) hp
  have h2 := hT 1 "regular" "standard" (itemsOf 1 10) _ (Or.inr rfl) hr
  rw [length_itemsOf] at h1 h2
  by_cases hle : T ≤ 1
  · exact absurd (h2.1 hle) (by decide)
  · exact absurd (h1.2 (by omega)) (by decide)

set_option maxHeartbeats 1000000 in
/-- C8, amended: the bulk threshold depends on the tier. Every credit order
without discount code that `ProcessOrder` returns for a regular user is
processing when it has at least 4 items and pending when it has fewer; every
such order returned for a premium user is processing, whatever its item
count. -/
theorem bulk_threshold_per_tier (orderID : Int) (userType shippingMethod : String)
    (items : List Item) (o : Order)
    (h : ProcessOrder orderID userType "credit" "" shippingMethod items = some o) :
    (userType = "regular" →
      (4 ≤ items.length → o.Status = "processing") ∧
      (items.length < 4 → o.Status = "pending")) ∧
    (userType = "premium" → o.Status = "processing") := by
  obtain ⟨rfl, -, -⟩ := processOrder_eq_some h
  constructor
  · rintro rfl
    simp only [ProcessOrderTrace, tierBranches]
    constructor
    · intro h4
      have : 3 < items.length := by omega
      simp [this]
    · intro h4
      have : ¬ 3 < items.length := by omega
      simp [this]
  · rintro rfl
    simp only [ProcessOrderTrace, tierBranches]
    simp
    split_ifs <;> simp

/-- C8 amended, at a regular user with one item priced 10: the order returned
is pending and the conclusion holds for it. -/
theorem bulk_threshold_per_tier_witness :
    ProcessOrder 1 "regular" "credit" "" "standard" (itemsOf 1 10) =
      some ⟨1, itemsOf 1 10, "regular", "credit", "", "standard", "pending"⟩ ∧
    ("regular" = "regular" →
      (4 ≤ (itemsOf 1 10).length → "pending" = "processing") ∧
      ((itemsOf 1 10).length < 4 → "pending" = "pending")) ∧
    ("regular" = "premium" → "pending" = "processing") := by
  have ho : ProcessOrder 1 "regular" "credit" "" "standard" (itemsOf 1 10) =
      some ⟨1, itemsOf 1 10, "regular", "credit", "", "standard", "pending"⟩ := by
    simp only [ProcessOrder, ProcessOrderTrace, tierBranches, sumLoop_zero, sum_itemsOf,
      length_itemsOf]
    simp [shippingBlock, finalValidation]
  exact ⟨ho, bulk_threshold_per_tier 1 "regular" "standard" (itemsOf 1 10) _ ho⟩

/-! ## Guest orders, totals and the returned order -/

/-- C11, the code at the failing input: a guest paying by credit for two items
priced 10 gets nil, although the call ends with status "guest_order" and
total 20. -/
theorem guest_credit_returns_nil :
    ProcessOrder 1 "guest" "credit" "" "standard" (itemsOf 2 10) = none ∧
    (ProcessOrderTrace 1 "guest" "credit" "" "standard" (itemsOf 2 10)).status =
      "guest_order" ∧
    (ProcessOrderTrace 1 "guest" "credit" "" "standard" (itemsOf 2 10)).total = 20 ∧
    0 < ((itemsOf 2 10).map Item.Price).sum := by
  refine ⟨?_, ?_, ?_, ?_⟩
  · simp [ProcessOrder, ProcessOrderTrace, tierBranches, shippingBlock, finalValidation]
  · simp [ProcessOrderTrace, tierBranches]
  · simp only [ProcessOrderTrace, tierBranches, sumLoop_zero, sum_itemsOf]
    repeat (first | norm_num [shippingBlock] | simp)
  · rw [sum_itemsOf]; norm_num

set_option maxHeartbeats 1000000 in
/-- C12: when all item prices are non-negative, the total at the return that
ends the call is not negative, for every tier, payment method, discount code
and shipping method; and whenever an order is returned the total is
positive. -/
theorem total_nonneg (orderID : Int)
    (userType paymentMethod discountCode shippingMethod : String) (items : List Item)
    (hprice : ∀ it ∈ items, 0 ≤ it.Price) :
    0 ≤ (ProcessOrderTrace orderID userType paymentMethod discountCode shippingMethod
      items).total ∧
    ∀ o, ProcessOrder orderID userType paymentMethod discountCode shippingMethod items
        = some o →
      0 < (ProcessOrderTrace orderID userType paymentMethod discountCode shippingMethod
        items).total := by
  have hs := sum_nonneg_of_prices items hprice
  refine ⟨?_, fun o ho => (processOrder_eq_some ho).2.1⟩
  simp only [ProcessOrderTrace, tierBranches, sumLoop_zero]
  split_ifs
  all_goals simp only [shippingBlock]
  all_goals (try split_ifs)
  all_goals linarith

/-- C12 at two items priced 10 for a premium user paying by credit. -/
theorem total_nonneg_witness :
    0 ≤ (ProcessOrderTrace 1 "premium" "credit" "" "standard" (itemsOf 2 10)).total :=
  (total_nonneg 1 "premium" "credit" "" "standard" (itemsOf 2 10) (by
    intro it hit
    rw [List.eq_of_mem_replicate hit]
    norm_num)).1

/-- C13: an order returned by `ProcessOrder` carries the request unchanged:
its ID, Items, UserType, PaymentMethod, DiscountCode and ShippingMethod are
the arguments of the call. -/
theorem returned_order_carries_request (orderID : Int)
    (userType paymentMethod discountCode shippingMethod : String) (items : List Item)
    (o : Order)
    (h : ProcessOrder orderID userType paymentMethod discountCode shippingMethod items
      = some o) :
    o.ID = orderID ∧ o.Items = items ∧ o.UserType = userType ∧
    o.PaymentMethod = paymentMethod ∧ o.DiscountCode = discountCode ∧
    o.ShippingMethod = shippingMethod := by
  obtain ⟨rfl, -, -⟩ := processOrder_eq_some h
  exact ⟨rfl, rfl, rfl, rfl, rfl, rfl⟩

/-- C13 at the order returned for a regular user paying by credit for one item
priced 10. -/
theorem returned_order_carries_request_witness :
    ProcessOrder 7 "regular" "credit" "" "standard" [⟨"Item1", 10⟩] =
      some ⟨7, [⟨"Item1", 10⟩], "regular", "credit", "", "standard", "pending"⟩ ∧
    ((7 : Int) = 7 ∧ ([⟨"Item1", 10⟩] : List Item) = [⟨"Item1", 10⟩] ∧
      "regular" = "regular" ∧ "credit" = "credit" ∧ "" = "" ∧ "standard" = "standard") := by
  have ho : ProcessOrder 7 "regular" "credit" "" "standard" [⟨"Item1", 10⟩] =
      some ⟨7, [⟨"Item1", 10⟩], "regular", "credit", "", "standard", "pending"⟩ := by
    simp only [ProcessOrder, ProcessOrderTrace, tierBranches, sumLoop_zero]
    repeat (first | norm_num [shippingBlock, finalValidation] | simp)
  exact ⟨ho, returned_order_carries_request 7 "regular" "credit" "" "standard"
    [⟨"Item1", 10⟩] _ ho⟩

/-! ## Workflow processor: auxiliary facts -/

theorem wrapInt_eq (x : Int) (hlo : -9223372036854775808 ≤ x)
    (hhi : x < 9223372036854775808) : wrapInt x = x := by
  unfold wrapInt
  omega

theorem handleProcessing_fst (op : OrderProcessor) : (handleProcessing op).1 = op := by
  unfold handleProcessing
  split_ifs <;> rfl

theorem handleRetrying_fst (op : OrderProcessor) : (handleRetrying op).1 = op := by
  unfold handleRetrying
  split_ifs <;> first | rfl | exact handleProcessing_fst op

theorem runProcess_nil (op : OrderProcessor) : runProcess op [] = op := rfl

theorem runProcess_cons (op : OrderProcessor) (d : Value) (ds : List Value) :
    runProcess op (d :: ds) = runProcess (Process op d).1 ds := rfl

/-- In a state that `Process` has no branch for, a call returns nil and
changes nothing. -/
theorem process_other_state (op : OrderProcessor) (d : Value)
    (h1 : op.state ≠ "init") (h2 : op.state ≠ "loading") (h3 : op.state ≠ "processing")
    (h4 : op.state ≠ "retrying") : Process op d = (op, Value.nil) := by
  simp [Process, h1, h2, h3, h4]

theorem runProcess_other_state (op : OrderProcessor) (ds : List Value)
    (h1 : op.state ≠ "init") (h2 : op.state ≠ "loading") (h3 : op.state ≠ "processing")
    (h4 : op.state ≠ "retrying") : runProcess op ds = op := by
  induction ds with
  | nil => rfl
  | cons d ds ih => rw [runProcess_cons, process_other_state op d h1 h2 h3 h4]; exact ih

/-- A call in state "processing" with both flags set and fewer than 3 retries
moves to "retrying" with one more retry. -/
theorem process_processing_retry (op : OrderProcessor) (d : Value)
    (hs : op.state = "processing") (h1 : op.flag1 = true) (h2 : op.flag2 = true)
    (hr : op.retryCount < 3) (hlo : -9223372036854775808 ≤ op.retryCount) :
    (Process op d).1 = { op with retryCount := op.retryCount + 1, state := "retrying" } := by
  have hw : wrapInt (op.retryCount + 1) = op.retryCount + 1 :=
    wrapInt_eq _ (by omega) (by omega)
  simp [Process, hs, h1, h2, hr, hw, handleRetrying_fst]

/-- A call in state "retrying" with fewer than 3 retries moves back to
"processing". -/
theorem process_retrying_lt (op : OrderProcessor) (d : Value)
    (hs : op.state = "retrying") (hr : op.retryCount < 3) :
    (Process op d).1 = { op with state := "processing" } := by
  have hr3 : ¬ op.retryCount ≥ 3 := by omega
  simp [Process, hs, hr3, handleProcessing_fst]

/-- A call in state "retrying" with 3 or more retries fails and returns nil. -/
theorem process_retrying_ge (op : OrderProcessor) (d : Value)
    (hs : op.state = "retrying") (hr : 3 ≤ op.retryCount) :
    Process op d = ({ op with state := "failed" }, Value.nil) := by
  simp [Process, hs, hr]

/-- The retry cycle on explicit fields: "processing" with both flags set and
fewer than 3 retries becomes "retrying" with one more retry. -/
theorem process_processing_fields (tv : Value) (c rc : Int) (d : Value)
    (h0 : 0 ≤ rc) (h3 : rc < 3) :
    (Process ⟨"processing", tv, true, true, c, rc⟩ d).1 =
      ⟨"retrying", tv, true, true, c, rc + 1⟩ := by
  rw [process_processing_retry _ d rfl rfl rfl h3 (by simp only []; omega)]

/-- The retry cycle on explicit fields: "retrying" with fewer than 3 retries
becomes "processing". -/
theorem process_retrying_fields (tv : Value) (f1 f2 : Bool) (c rc : Int) (d : Value)
    (h3 : rc < 3) :
    (Process ⟨"retrying", tv, f1, f2, c, rc⟩ d).1 = ⟨"processing", tv, f1, f2, c, rc⟩ := by
  rw [process_retrying_lt _ d rfl h3]

/-- The retry cycle on explicit fields: "retrying" after 3 retries becomes
"failed". -/
theorem process_retrying_fields_failed (tv : Value) (f1 f2 : Bool) (c : Int) (d : Value) :
    (Process ⟨"retrying", tv, f1, f2, c, 3⟩ d).1 = ⟨"failed", tv, f1, f2, c, 3⟩ := by
  rw [process_retrying_ge _ d rfl (by show (3 : Int) ≤ 3; omega)]

theorem handleReady_retryCount (op : OrderProcessor) :
    (handleReady op).1.retryCount = op.retryCount := by
  unfold handleReady
  split_ifs <;> rfl

theorem handleLoading_retryCount (op : OrderProcessor) :
    (handleLoading op).1.retryCount = op.retryCount := by
  unfold handleLoading
  split_ifs
  · rw [handleReady_retryCount]
  · rfl

/-- One `Process` call never lowers retryCount and keeps it at most 3 when it
was between 0 and 3. -/
theorem process_retryCount_bounds (op : OrderProcessor) (d : Value)
    (h0 : 0 ≤ op.retryCount) (h3 : op.retryCount ≤ 3) :
    op.retryCount ≤ (Process op d).1.retryCount ∧ (Process op d).1.retryCount ≤ 3 := by
  simp only [Process]
  split_ifs
  all_goals
    simp only [handleReady_retryCount, handleLoading_retryCount, handleProcessing_fst,
      handleRetrying_fst, handleComplete, wrapInt]
  all_goals omega

/-- The bounds `0 ≤ retryCount ≤ 3` are kept by any sequence of calls. -/
theorem runProcess_retryCount_bounds (inputs : List Value) (op : OrderProcessor)
    (h0 : 0 ≤ op.retryCount) (h3 : op.retryCount ≤ 3) :
    0 ≤ (runProcess op inputs).retryCount ∧ (runProcess op inputs).retryCount ≤ 3 := by
  induction inputs generalizing op with
  | nil => exact ⟨h0, h3⟩
  | cons d ds ih =>
    rw [runProcess_cons]
    have hb := process_retryCount_bounds op d h0 h3
    exact ih _ (by omega) hb.2

/-! ## Workflow processor: loading -/

/-- C14: the first `Process(d)` call on a processor made by
`NewOrderProcessor` leaves the state "loading", tempValue equal to d, flag1
true, counter 1, flag2 false and retryCount 0, and returns nil. -/
theorem first_input (d : Value) :
    Process NewOrderProcessor d =
      ({ state := "loading"
         tempValue := d
         flag1 := true
         flag2 := false
         counter := 1
         retryCount := 0 }, Value.nil) := by
  simp [Process, NewOrderProcessor, handleLoading, wrapInt]

/-- C15: in state "loading" with flag1 set, flag2 unset and counter below 7
(a Go int, so not below -2^63), `Process(d)` keeps the state "loading",
replaces tempValue by the rendering of the old payload followed by that of d,
adds exactly 1 to counter, leaves flag1, flag2 and retryCount as they were,
and returns nil. -/
theorem loading_below_threshold (op : OrderProcessor) (d : Value)
    (hs : op.state = "loading") (h1 : op.flag1 = true) (h2 : op.flag2 = false)
    (hc : op.counter < 7) (hlo : -9223372036854775808 ≤ op.counter) :
    (Process op d).1.state = "loading" ∧
    (Process op d).1.tempValue = Value.str (render op.tempValue ++ render d) ∧
    (Process op d).1.counter = op.counter + 1 ∧
    (Process op d).1.flag1 = op.flag1 ∧
    (Process op d).1.flag2 = op.flag2 ∧
    (Process op d).1.retryCount = op.retryCount ∧
    (Process op d).2 = Value.nil := by
  have hw : wrapInt (op.counter + 1) = op.counter + 1 :=
    wrapInt_eq _ (by omega) (by omega)
  have h10 : ¬ op.counter + 1 > 10 := by omega
  have h7 : ¬ op.counter + 1 > 7 := by omega
  simp [Process, handleLoading, sprintfVV, hs, h1, h2, hw, h10, h7]

/-- C15 at a processor that has received the input "a" once and now receives
"b": the payload becomes "ab" and the counter 2. -/
theorem loading_below_threshold_witness :
    (Process ⟨"loading", Value.str "a", true, false, 1, 0⟩ (Value.str "b")).1.state
      = "loading" ∧
    (Process ⟨"loading", Value.str "a", true, false, 1, 0⟩ (Value.str "b")).1.tempValue
      = Value.str ("a" ++ "b") ∧
    (Process ⟨"loading", Value.str "a", true, false, 1, 0⟩ (Value.str "b")).1.counter
      = 1 + 1 ∧
    (Process ⟨"loading", Value.str "a", true, false, 1, 0⟩ (Value.str "b")).1.flag1
      = true ∧
    (Process ⟨"loading", Value.str "a", true, false, 1, 0⟩ (Value.str "b")).1.flag2
      = false ∧
    (Process ⟨"loading", Value.str "a", true, false, 1, 0⟩ (Value.str "b")).1.retryCount
      = 0 ∧
    (Process ⟨"loading", Value.str "a", true, false, 1, 0⟩ (Value.str "b")).2 = Value.nil :=
  loading_below_threshold ⟨"loading", Value.str "a", true, false, 1, 0⟩ (Value.str "b")
    rfl rfl rfl (by decide) (by decide)

/-- C16, refuted as stated: a fresh processor fed seven inputs is in state
"loading" with flag1 set and counter 7; the eighth call brings the counter to
8 and sets flag2, and the state after it is "done", neither "ready" nor
"processing"; no later call changes the processor. -/
theorem threshold_call_ends_done :
    (runProcess NewOrderProcessor (List.replicate 7 (Value.str "x"))).state = "loading" ∧
    (runProcess NewOrderProcessor (List.replicate 7 (Value.str "x"))).flag1 = true ∧
    (runProcess NewOrderProcessor (List.replicate 7 (Value.str "x"))).counter = 7 ∧
    (runProcess NewOrderProcessor (List.replicate 8 (Value.str "x"))).counter = 8 ∧
    (runProcess NewOrderProcessor (List.replicate 8 (Value.str "x"))).flag2 = true ∧
    (runProcess NewOrderProcessor (List.replicate 8 (Value.str "x"))).state = "done" ∧
    (runProcess NewOrderProcessor (List.replicate 8 (Value.str "x"))).state ≠ "ready" ∧
    (runProcess NewOrderProcessor (List.replicate 8 (Value.str "x"))).state ≠ "processing" ∧
    ∀ inputs : List Value,
      runProcess (runProcess NewOrderProcessor (List.replicate 8 (Value.str "x"))) inputs =
        runProcess NewOrderProcessor (List.replicate 8 (Value.str "x")) := by
  have h8 : (runProcess NewOrderProcessor (List.replicate 8 (Value.str "x"))).state
      = "done" := by decide
  refine ⟨by decide, by decide, by decide, by decide, by decide, h8, ?_, ?_, ?_⟩
  · rw [h8]; decide
  · rw [h8]; decide
  · intro inputs
    apply runProcess_other_state <;> rw [h8] <;> decide

/-- C16, amended: when a `Process` call in state "loading" with flag1 set and
flag2 unset brings the counter above 7 and not above 10 (the counter is 7, 8
or 9 before the call), flag2 is set, the state after the call is "done" and
the call returns the new payload; the processor is then at a dead end: no
later call changes it. -/
theorem loading_reaches_threshold (op : OrderProcessor) (d : Value)
    (hs : op.state = "loading") (h1 : op.flag1 = true) (h2 : op.flag2 = false)
    (hc7 : 7 ≤ op.counter) (hc10 : op.counter < 10) :
    (Process op d).1.flag2 = true ∧
    (Process op d).1.state = "done" ∧
    (Process op d).1.counter = op.counter + 1 ∧
    (Process op d).2 = Value.str (render op.tempValue ++ render d) ∧
    ∀ inputs : List Value, runProcess (Process op d).1 inputs = (Process op d).1 := by
  have hw : wrapInt (op.counter + 1) = op.counter + 1 :=
    wrapInt_eq _ (by omega) (by omega)
  have h10 : ¬ op.counter + 1 > 10 := by omega
  have h7 : op.counter + 1 > 7 := by omega
  have hst : (Process op d).1.state = "done" := by
    simp [Process, handleLoading, handleReady, hs, h1, h2, hw, h10, h7]
  refine ⟨?_, hst, ?_, ?_, ?_⟩
  · simp [Process, handleLoading, handleReady, hs, h1, h2, hw, h10, h7]
  · simp [Process, handleLoading, handleReady, hs, h1, h2, hw, h10, h7]
  · simp [Process, handleLoading, handleReady, sprintfVV, hs, h1, h2, hw, h10, h7]
  · intro inputs
    apply runProcess_other_state <;> rw [hst] <;> decide

/-- C16 amended, at a processor in state "loading" with payload "abcdefg" and
counter 7 that receives "h": the state becomes "done" and "abcdefgh" is
returned. -/
theorem loading_reaches_threshold_witness :
    (Process ⟨"loading", Value.str "abcdefg", true, false, 7, 0⟩ (Value.str "h")).1.state
      = "done" ∧
    (Process ⟨"loading", Value.str "abcdefg", true, false, 7, 0⟩ (Value.str "h")).2
      = Value.str ("abcdefg" ++ "h") :=
  have h := loading_reaches_threshold ⟨"loading", Value.str "abcdefg", true, false, 7, 0⟩
    (Value.str "h") rfl rfl rfl (by decide) (by decide)
  ⟨h.2.1, h.2.2.2.1⟩

/-! ## Workflow processor: retries -/

/-- C17: in state "processing" with flag1 and flag2 set and retryCount below 3
(a Go int, so not below -2^63), `Process` adds exactly 1 to retryCount, sets
the state to "retrying" and leaves tempValue, flag1, flag2 and counter as they
were. -/
theorem processing_starts_retry (op : OrderProcessor) (d : Value)
    (hs : op.state = "processing") (h1 : op.flag1 = true) (h2 : op.flag2 = true)
    (hr : op.retryCount < 3) (hlo : -9223372036854775808 ≤ op.retryCount) :
    (Process op d).1.retryCount = op.retryCount + 1 ∧
    (Process op d).1.state = "retrying" ∧
    (Process op d).1.tempValue = op.tempValue ∧
    (Process op d).1.flag1 = op.flag1 ∧
    (Process op d).1.flag2 = op.flag2 ∧
    (Process op d).1.counter = op.counter := by
  rw [process_processing_retry op d hs h1 h2 hr hlo]
  exact ⟨rfl, rfl, rfl, rfl, rfl, rfl⟩

/-- C17 at a processor in state "processing" with one retry behind it. -/
theorem processing_starts_retry_witness :
    (Process ⟨"processing", Value.str "p", true, true, 8, 1⟩ Value.nil).1.retryCount = 1 + 1 ∧
    (Process ⟨"processing", Value.str "p", true, true, 8, 1⟩ Value.nil).1.state
      = "retrying" :=
  have h := processing_starts_retry ⟨"processing", Value.str "p", true, true, 8, 1⟩
    Value.nil rfl rfl rfl (by decide) (by decide)
  ⟨h.1, h.2.1⟩

/-- C18: in state "retrying", if retryCount is below 3 `Process` sets the
state to "processing" and changes no other field; if retryCount is 3 or more
`Process` sets the state to "failed", returns nil and changes no other
field. -/
theorem retrying_step (op : OrderProcessor) (d : Value) (hs : op.state = "retrying") :
    (op.retryCount < 3 → (Process op d).1 = { op with state := "processing" }) ∧
    (3 ≤ op.retryCount →
      (Process op d).1 = { op with state := "failed" } ∧ (Process op d).2 = Value.nil) := by
  constructor
  · intro hr
    exact process_retrying_lt op d hs hr
  · intro hr
    rw [process_retrying_ge op d hs hr]
    exact ⟨rfl, rfl⟩

/-- C18 at a processor in state "retrying" after its third retry: the call
fails it and returns nil. -/
theorem retrying_step_witness :
    Process ⟨"retrying", Value.str "p", true, true, 8, 3⟩ (Value.str "d") =
      (⟨"failed", Value.str "p", true, true, 8, 3⟩, Value.nil) := by
  have h := (retrying_step ⟨"retrying", Value.str "p", true, true, 8, 3⟩ (Value.str "d")
    rfl).2 (by decide)
  exact Prod.ext h.1 h.2

/-- C19: from a processor in state "processing" with flag1 and flag2 set and
retryCount 0, successive `Process` calls, whatever the inputs, never make the
state "complete", do not reach "failed" in fewer than six calls, and from the
sixth call on the state is "failed" with retryCount 3. -/
theorem bounded_retry (op : OrderProcessor) (inputs : List Value)
    (hs : op.state = "processing") (h1 : op.flag1 = true) (h2 : op.flag2 = true)
    (hr : op.retryCount = 0) :
    (runProcess op inputs).state ≠ "complete" ∧
    (inputs.length < 6 → (runProcess op inputs).state ≠ "failed") ∧
    (6 ≤ inputs.length →
      (runProcess op inputs).state = "failed" ∧ (runProcess op inputs).retryCount = 3) := by
  obtain ⟨st, tv, f1, f2, c, rc⟩ := op
  simp only [] at hs h1 h2 hr
  subst hs h1 h2 hr
  have hfail : ∀ ds : List Value,
      runProcess ⟨"failed", tv, true, true, c, 3⟩ ds = ⟨"failed", tv, true, true, c, 3⟩ :=
    fun ds => runProcess_other_state _ ds (by simp) (by simp) (by simp) (by simp)
  rcases inputs with _ | ⟨d1, _ | ⟨d2, _ | ⟨d3, _ | ⟨d4, _ | ⟨d5, _ | ⟨d6, rest⟩⟩⟩⟩⟩⟩
  all_goals
    simp only [runProcess_cons, runProcess_nil,
      process_processing_fields tv c 0 _ (by decide) (by decide),
      process_processing_fields tv c (0 + 1) _ (by decide) (by decide),
      process_processing_fields tv c (0 + 1 + 1) _ (by decide) (by decide),
      process_retrying_fields tv true true c (0 + 1) _ (by decide),
      process_retrying_fields tv true true c (0 + 1 + 1) _ (by decide),
      show (0 : Int) + 1 + 1 + 1 = 3 from rfl,
      process_retrying_fields_failed, hfail]
  all_goals simp

/-- C19 at a processor with payload "p" and six inputs: the state is "failed"
and retryCount 3. -/
theorem bounded_retry_witness :
    (runProcess ⟨"processing", Value.str "p", true, true, 8, 0⟩
      (List.replicate 6 Value.nil)).state = "failed" ∧
    (runProcess ⟨"processing", Value.str "p", true, true, 8, 0⟩
      (List.replicate 6 Value.nil)).retryCount = 3 :=
  (bounded_retry ⟨"processing", Value.str "p", true, true, 8, 0⟩
    (List.replicate 6 Value.nil) rfl rfl rfl rfl).2.2 (by decide)

/-- C20: for a processor with retryCount between 0 and 3 and every input,
retryCount after `Process` is not smaller than before and still at most 3;
hence after any sequence of `Process` calls on a processor made by
`NewOrderProcessor`, retryCount is at most 3. -/
theorem retryCount_le_limit (op : OrderProcessor) (d : Value)
    (h0 : 0 ≤ op.retryCount) (h3 : op.retryCount ≤ 3) :
    (op.retryCount ≤ (Process op d).1.retryCount ∧ (Process op d).1.retryCount ≤ 3) ∧
    ∀ inputs : List Value, (runProcess NewOrderProcessor inputs).retryCount ≤ 3 :=
  ⟨process_retryCount_bounds op d h0 h3,
    fun inputs => (runProcess_retryCount_bounds inputs NewOrderProcessor
      (by decide) (by decide)).2⟩

/-- C20 at a processor in state "processing" with two retries behind it: the
call makes retryCount 3, not more. -/
theorem retryCount_le_limit_witness :
    (2 : Int) ≤ (Process ⟨"processing", Value.str "p", true, true, 8, 2⟩
      Value.nil).1.retryCount ∧
    (Process ⟨"processing", Value.str "p", true, true, 8, 2⟩ Value.nil).1.retryCount ≤ 3 :=
  (retryCount_le_limit ⟨"processing", Value.str "p", true, true, 8, 2⟩ Value.nil
    (by decide) (by decide)).1

/-! ## Workflow processor: the run of a fresh processor -/

theorem process_new (d : Value) :
    Process NewOrderProcessor d = (⟨"loading", d, true, false, 1, 0⟩, Value.nil) := by
  simp [Process, NewOrderProcessor, handleLoading, wrapInt]

/-- A loading call below the threshold, on explicit fields. -/
theorem process_loading_lt (tv d : Value) (c rc : Int) (h0 : 0 ≤ c) (h7 : c < 7) :
    Process ⟨"loading", tv, true, false, c, rc⟩ d =
      (⟨"loading", Value.str (sprintfVV tv d), true, false, c + 1, rc⟩, Value.nil) := by
  have hw : wrapInt (c + 1) = c + 1 := wrapInt_eq _ (by omega) (by omega)
  have h10 : ¬ c + 1 > 10 := by omega
  have h8 : ¬ c + 1 > 7 := by omega
  simp [Process, handleLoading, hw, h10, h8]

/-- The loading call that brings the counter from 7 to 8, on explicit
fields. -/
theorem process_loading_seven (tv d : Value) (rc : Int) :
    Process ⟨"loading", tv, true, false, 7, rc⟩ d =
      (⟨"done", Value.str (sprintfVV tv d), true, true, 8, rc⟩,
        Value.str (sprintfVV tv d)) := by
  simp [Process, handleLoading, handleReady, wrapInt]

theorem processResults_other_state (op : OrderProcessor) (ds : List Value)
    (h1 : op.state ≠ "init") (h2 : op.state ≠ "loading") (h3 : op.state ≠ "processing")
    (h4 : op.state ≠ "retrying") :
    processResults op ds = List.replicate ds.length Value.nil := by
  induction ds with
  | nil => rfl
  | cons d ds ih =>
    simp only [processResults, process_other_state op d h1 h2 h3 h4, ih, List.length_cons,
      List.replicate_succ]

/-- The processor after a run of calls started in state "loading" with flag1
set, flag2 unset, no retry and counter `c` between 1 and 7: still loading
while the counter stays at most 7, "done" with counter 8 afterwards. -/
theorem runProcess_loading (ds : List Value) (tv : Value) (c : Nat) (h7 : c ≤ 7) :
    runProcess ⟨"loading", tv, true, false, (c : Int), 0⟩ ds =
      if c + ds.length ≤ 7 then
        ⟨"loading", ds.foldl (fun t d => Value.str (sprintfVV t d)) tv, true, false,
          ((c + ds.length : Nat) : Int), 0⟩
      else
        ⟨"done", (ds.take (8 - c)).foldl (fun t d => Value.str (sprintfVV t d)) tv, true,
          true, 8, 0⟩ := by
  induction ds generalizing tv c with
  | nil => simp [runProcess_nil, h7]
  | cons d ds ih =>
    rw [runProcess_cons]
    by_cases hc : c < 7
    · rw [process_loading_lt tv d c 0 (by omega) (by omega)]
      have hcast : ((c : Int) + 1) = ((c + 1 : Nat) : Int) := by push_cast; ring
      simp only [hcast]
      rw [ih _ (c + 1) (by omega)]
      have h8 : 8 - c = (8 - (c + 1)) + 1 := by omega
      by_cases hl : c + 1 + ds.length ≤ 7
      · have hl2 : c + (d :: ds).length ≤ 7 := by simp only [List.length_cons]; omega
        rw [if_pos hl, if_pos hl2]
        simp only [List.foldl_cons, List.length_cons]
        congr 2
        omega
      · have hl2 : ¬ c + (d :: ds).length ≤ 7 := by simp only [List.length_cons]; omega
        rw [if_neg hl, if_neg hl2, h8]
        simp only [List.take_succ_cons, List.foldl_cons]
    · have hc7 : c = 7 := by omega
      subst hc7
      have hl2 : ¬ 7 + (d :: ds).length ≤ 7 := by simp only [List.length_cons]; omega
      rw [if_neg hl2]
      have : ((7 : Nat) : Int) = 7 := rfl
      rw [this, process_loading_seven]
      rw [runProcess_other_state _ ds (by simp) (by simp) (by simp) (by simp)]
      simp

/-- The values returned on such a run: nil until the call that brings the
counter to 8, which returns the payload, and nil afterwards. -/
theorem processResults_loading (ds : List Value) (tv : Value) (c : Nat) (h7 : c ≤ 7) :
    processResults ⟨"loading", tv, true, false, (c : Int), 0⟩ ds =
      if c + ds.length ≤ 7 then
        List.replicate ds.length Value.nil
      else
        List.replicate (7 - c) Value.nil ++
          (ds.take (8 - c)).foldl (fun t d => Value.str (sprintfVV t d)) tv ::
            List.replicate (c + ds.length - 8) Value.nil := by
  induction ds generalizing tv c with
  | nil => simp [processResults, h7]
  | cons d ds ih =>
    by_cases hc : c < 7
    · simp only [processResults]
      rw [process_loading_lt tv d c 0 (by omega) (by omega)]
      have hcast : ((c : Int) + 1) = ((c + 1 : Nat) : Int) := by push_cast; ring
      simp only [hcast]
      rw [ih _ (c + 1) (by omega)]
      have h8 : 8 - c = (8 - (c + 1)) + 1 := by omega
      have h7' : 7 - c = (7 - (c + 1)) + 1 := by omega
      by_cases hl : c + 1 + ds.length ≤ 7
      · have hl2 : c + (d :: ds).length ≤ 7 := by simp only [List.length_cons]; omega
        rw [if_pos hl, if_pos hl2]
        simp [List.replicate_succ]
      · have hl2 : ¬ c + (d :: ds).length ≤ 7 := by simp only [List.length_cons]; omega
        rw [if_neg hl, if_neg hl2, h8, h7']
        simp only [List.take_succ_cons, List.foldl_cons, List.replicate_succ,
          List.cons_append, List.length_cons]
        congr 4
        omega
    · have hc7 : c = 7 := by omega
      subst hc7
      have hl2 : ¬ 7 + (d :: ds).length ≤ 7 := by simp only [List.length_cons]; omega
      rw [if_neg hl2]
      simp only [processResults]
      have : ((7 : Nat) : Int) = 7 := rfl
      rw [this, process_loading_seven]
      rw [processResults_other_state _ ds (by simp) (by simp) (by simp) (by simp)]
      simp
      omega

/-- Appending the renderings of strings is string concatenation. -/
theorem foldl_sprintf_str (ss : List String) (s : String) :
    (ss.map Value.str).foldl (fun t d => Value.str (sprintfVV t d)) (Value.str s) =
      Value.str (ss.foldl (fun r x => r ++ x) s) := by
  induction ss generalizing s with
  | nil => rfl
  | cons x xs ih =>
    have hstep : Value.str (sprintfVV (Value.str s) (Value.str x)) = Value.str (s ++ x) := rfl
    simp only [List.map_cons, List.foldl_cons, hstep]
    exact ih (s ++ x)

/-- The processor after a non-empty run of calls on a fresh processor. -/
theorem runProcess_new_cons (d : Value) (ds : List Value) :
    runProcess NewOrderProcessor (d :: ds) =
      if 1 + ds.length ≤ 7 then
        ⟨"loading", ds.foldl (fun t x => Value.str (sprintfVV t x)) d, true, false,
          ((1 + ds.length : Nat) : Int), 0⟩
      else
        ⟨"done", (ds.take 7).foldl (fun t x => Value.str (sprintfVV t x)) d, true, true,
          8, 0⟩ := by
  rw [runProcess_cons, process_new]
  exact runProcess_loading ds d 1 (by omega)

/-- A fresh processor is only ever in state "init", "loading" or "done", and
its retryCount stays 0. -/
theorem runProcess_new_state (inputs : List Value) :
    ((runProcess NewOrderProcessor inputs).state = "init" ∨
      (runProcess NewOrderProcessor inputs).state = "loading" ∨
      (runProcess NewOrderProcessor inputs).state = "done") ∧
    (runProcess NewOrderProcessor inputs).retryCount = 0 := by
  cases inputs with
  | nil => exact ⟨Or.inl rfl, rfl⟩
  | cons d ds =>
    rw [runProcess_new_cons]
    split_ifs
    · exact ⟨Or.inr (Or.inl rfl), rfl⟩
    · exact ⟨Or.inr (Or.inr rfl), rfl⟩

theorem handleReady_state_ne_init (op : OrderProcessor) (h : op.state ≠ "init") :
    (handleReady op).1.state ≠ "init" := by
  unfold handleReady
  split_ifs
  · simp
  · simp
  · exact h

theorem handleLoading_state_ne_init (op : OrderProcessor) (h : op.state ≠ "init") :
    (handleLoading op).1.state ≠ "init" := by
  unfold handleLoading
  split_ifs
  · exact handleReady_state_ne_init _ (by simp)
  · exact h

/-- No `Process` call leaves the processor in state "init". -/
theorem process_state_ne_init (op : OrderProcessor) (d : Value) :
    (Process op d).1.state ≠ "init" := by
  simp only [Process]
  split_ifs
  all_goals
    first
    | exact handleReady_state_ne_init _ (by simp_all)
    | exact handleLoading_state_ne_init _ (by simp_all)
    | (rw [handleProcessing_fst]; simp)
    | (rw [handleRetrying_fst]; simp)
    | (simp [handleComplete]; done)
    | assumption

theorem runProcess_state_ne_init (ds : List Value) (op : OrderProcessor)
    (h : op.state ≠ "init") : (runProcess op ds).state ≠ "init" := by
  induction ds generalizing op with
  | nil => exact h
  | cons d ds ih =>
    rw [runProcess_cons]
    exact ih _ (process_state_ne_init op d)

/-! ## Workflow processor: terminal states and the fresh run -/

/-- C21: in a terminal state ("complete" or "failed") `Process` returns nil
for every input and leaves state, tempValue, flag1, flag2, counter and
retryCount exactly as they were. -/
theorem terminal_state_unchanged (op : OrderProcessor) (d : Value)
    (h : op.state = "complete" ∨ op.state = "failed") :
    Process op d = (op, Value.nil) := by
  rcases h with h | h <;> apply process_other_state <;> rw [h] <;> decide

/-- C21 at a failed processor. -/
theorem terminal_state_unchanged_witness :
    Process ⟨"failed", Value.str "p", true, true, 8, 3⟩ (Value.str "d") =
      (⟨"failed", Value.str "p", true, true, 8, 3⟩, Value.nil) :=
  terminal_state_unchanged ⟨"failed", Value.str "p", true, true, 8, 3⟩ (Value.str "d")
    (Or.inr rfl)

/-- C22, refuted as stated: there is no bound N such that every run of at
least N calls on a fresh processor has reached "complete" or "failed" within
N calls; a fresh processor never reaches either state. -/
theorem fresh_never_terminal :
    ¬ ∃ N : Nat, ∀ inputs : List Value, N ≤ inputs.length →
      ∃ k, k ≤ N ∧
        ((runProcess NewOrderProcessor (inputs.take k)).state = "complete" ∨
         (runProcess NewOrderProcessor (inputs.take k)).state = "failed") := by
  rintro ⟨N, hN⟩
  obtain ⟨k, -, hk⟩ := hN (List.replicate N Value.nil) (by simp)
  have hst := (runProcess_new_state ((List.replicate N Value.nil).take k)).1
  rcases hk with hk | hk <;> rw [hk] at hst <;> revert hst <;> decide

/-- C22, amended: a fresh processor reaches the dead-end state "done" in
bounded time. For every sequence of at least 8 inputs, the state is "done"
after 8 calls and after every later call, and it is neither "complete" nor
"failed" after any number of calls. -/
theorem fresh_reaches_done (inputs : List Value) (h : 8 ≤ inputs.length) :
    (∀ k, 8 ≤ k → (runProcess NewOrderProcessor (inputs.take k)).state = "done") ∧
    (∀ k, (runProcess NewOrderProcessor (inputs.take k)).state ≠ "complete" ∧
      (runProcess NewOrderProcessor (inputs.take k)).state ≠ "failed") := by
  constructor
  · intro k hk
    have hlen : 8 ≤ (inputs.take k).length := by
      rw [List.length_take]; omega
    cases htk : inputs.take k with
    | nil => rw [htk] at hlen; simp at hlen
    | cons d ds =>
      rw [htk] at hlen
      simp only [List.length_cons] at hlen
      rw [runProcess_new_cons, if_neg (by omega)]
  · intro k
    have hst := (runProcess_new_state (inputs.take k)).1
    constructor <;> intro hk <;> rw [hk] at hst <;> revert hst <;> decide

/-- C22 amended, at eight inputs "x": the state after the eighth call is
"done". -/
theorem fresh_reaches_done_witness :
    (runProcess NewOrderProcessor
      ((List.replicate 8 (Value.str "x")).take 8)).state = "done" :=
  (fresh_reaches_done (List.replicate 8 (Value.str "x")) (by decide)).1 8 (by decide)

/-- C23: the state after a `Process` call is never "init", whatever the
processor and the input; so after the first call no sequence of further calls
brings the state back to "init". -/
theorem never_reenters_init (op : OrderProcessor) (d : Value) :
    (Process op d).1.state ≠ "init" ∧
    ∀ ds : List Value, (runProcess (Process op d).1 ds).state ≠ "init" :=
  ⟨process_state_ne_init op d,
    fun ds => runProcess_state_ne_init ds _ (process_state_ne_init op d)⟩

/-- C24, refuted as stated: a processor in state "processing" with both flags
set, payload "p", counter 8 and no retry yet, for which handleProcessing
yields the payload, goes to "retrying" with retryCount 1, not to
"complete". -/
theorem successful_processing_retries :
    (handleProcessing ⟨"processing", Value.str "p", true, true, 8, 0⟩).2 = Value.str "p" ∧
    (Process ⟨"processing", Value.str "p", true, true, 8, 0⟩ Value.nil).1 =
      ⟨"retrying", Value.str "p", true, true, 8, 1⟩ ∧
    (Process ⟨"processing", Value.str "p", true, true, 8, 0⟩ Value.nil).1.state
      ≠ "complete" := by
  decide

/-- C24, amended: for every processor in state "processing" with flag1 and
flag2 set whose retryCount is 3 or more, `Process` sets the state to
"complete", changes no other field and returns the stored payload
tempValue. -/
theorem processing_completes (op : OrderProcessor) (d : Value)
    (hs : op.state = "processing") (h1 : op.flag1 = true) (h2 : op.flag2 = true)
    (hr : 3 ≤ op.retryCount) :
    Process op d = ({ op with state := "complete" }, op.tempValue) := by
  have hr3 : ¬ op.retryCount < 3 := by omega
  simp [Process, handleComplete, hs, h1, h2, hr3]

/-- C24 amended, at a processor with payload "p" after three retries. -/
theorem processing_completes_witness :
    Process ⟨"processing", Value.str "p", true, true, 8, 3⟩ Value.nil =
      (⟨"complete", Value.str "p", true, true, 8, 3⟩, Value.str "p") :=
  processing_completes ⟨"processing", Value.str "p", true, true, 8, 3⟩ Value.nil
    rfl rfl rfl (by decide)

/-- C26: the trace of a fresh processor fed the strings `ss` one per call.
Up to seven calls all return nil and leave state "loading", the payload the
concatenation of the inputs and the counter the number of calls; the eighth
call returns the concatenation of the first eight inputs and leaves state
"done" with flag2 set and counter 8; every later call returns nil and changes
nothing; retryCount stays 0 and the states "processing", "retrying",
"complete", "failed" and "error" are never entered. -/
theorem fresh_processor_trace (ss : List String) :
    (ss.length ≤ 7 →
      processResults NewOrderProcessor (ss.map Value.str) =
        List.replicate ss.length Value.nil) ∧
    (1 ≤ ss.length → ss.length ≤ 7 →
      runProcess NewOrderProcessor (ss.map Value.str) =
        ⟨"loading", Value.str (String.join ss), true, false, (ss.length : Int), 0⟩) ∧
    (8 ≤ ss.length →
      runProcess NewOrderProcessor (ss.map Value.str) =
        ⟨"done", Value.str (String.join (ss.take 8)), true, true, 8, 0⟩ ∧
      processResults NewOrderProcessor (ss.map Value.str) =
        List.replicate 7 Value.nil ++
          Value.str (String.join (ss.take 8)) ::
            List.replicate (ss.length - 8) Value.nil) ∧
    (runProcess NewOrderProcessor (ss.map Value.str)).retryCount = 0 ∧
    (runProcess NewOrderProcessor (ss.map Value.str)).state ≠ "processing" ∧
    (runProcess NewOrderProcessor (ss.map Value.str)).state ≠ "retrying" ∧
    (runProcess NewOrderProcessor (ss.map Value.str)).state ≠ "complete" ∧
    (runProcess NewOrderProcessor (ss.map Value.str)).state ≠ "failed" ∧
    (runProcess NewOrderProcessor (ss.map Value.str)).state ≠ "error" := by
  have hst := runProcess_new_state (ss.map Value.str)
  have hjoin : ∀ (s : String) (l : List String),
      String.join (s :: l) = l.foldl (fun r x => r ++ x) s := fun s l => by
    simp [String.join]
  refine ⟨?_, ?_, ?_, hst.2, ?_, ?_, ?_, ?_, ?_⟩
  · intro h7
    cases ss with
    | nil => rfl
    | cons s l =>
      simp only [List.length_cons] at h7
      simp only [List.map_cons, processResults, process_new]
      have := processResults_loading (l.map Value.str) (Value.str s) 1 (by omega)
      simp only [Nat.cast_one] at this
      rw [this, if_pos (by simp; omega)]
      simp [List.replicate_succ]
  · intro h1 h7
    cases ss with
    | nil => simp at h1
    | cons s l =>
      simp only [List.length_cons] at h7
      rw [List.map_cons, runProcess_new_cons, if_pos (by simp; omega), foldl_sprintf_str,
        hjoin]
      simp only [List.length_map, List.length_cons]
      congr 1
      omega
  · intro h8
    cases ss with
    | nil => simp at h8
    | cons s l =>
      simp only [List.length_cons] at h8
      constructor
      · rw [List.map_cons, runProcess_new_cons, if_neg (by simp; omega), ← List.map_take,
          foldl_sprintf_str, List.take_succ_cons, hjoin]
      · simp only [List.map_cons, processResults, process_new]
        have := processResults_loading (l.map Value.str) (Value.str s) 1 (by omega)
        simp only [Nat.cast_one] at this
        rw [this, if_neg (by simp; omega), ← List.map_take, foldl_sprintf_str,
          List.take_succ_cons, hjoin]
        simp [List.replicate_succ]
        omega
  all_goals (intro h; have h' := hst.1; rw [h] at h'; revert h'; decide)

/-- C26 at nine inputs "a" to "i": the run ends in state "done" with payload
"abcdefgh", and only the eighth call returns a value. -/
theorem fresh_processor_trace_witness :
    runProcess NewOrderProcessor
        (["a", "b", "c", "d", "e", "f", "g", "h", "i"].map Value.str) =
      ⟨"done", Value.str (String.join (["a", "b", "c", "d", "e", "f", "g", "h", "i"].take 8)),
        true, true, 8, 0⟩ ∧
    processResults NewOrderProcessor
        (["a", "b", "c", "d", "e", "f", "g", "h", "i"].map Value.str) =
      List.replicate 7 Value.nil ++
        Value.str (String.join (["a", "b", "c", "d", "e", "f", "g", "h", "i"].take 8)) ::
          List.replicate
            (["a", "b", "c", "d", "e", "f", "g", "h", "i"].length - 8) Value.nil :=
  (fresh_processor_trace ["a", "b", "c", "d", "e", "f", "g", "h", "i"]).2.2.1 (by decide)

/-! ## Empty orders, returned statuses and discounts -/

/-- C25, refuted as stated: with an empty item list and no discount code the
subtotal is 0 and a regular user paying by credit gets nil with standard
shipping, as does a premium user with express shipping. -/
theorem empty_order_rejected :
    (([] : List Item).map Item.Price).sum = 0 ∧
    ProcessOrder 1 "regular" "credit" "" "standard" [] = none ∧
    ProcessOrder 1 "regular" "credit" "" "express" [] = none ∧
    ProcessOrder 1 "premium" "credit" "" "express" [] = none := by
  refine ⟨rfl, ?_, ?_, ?_⟩ <;>
    simp [ProcessOrder, ProcessOrderTrace, tierBranches, shippingBlock, finalValidation,
      sumLoop]

/-- C25, amended: with an empty item list, payment by credit and no discount
code the price sum is 0; a regular user gets nil whatever the shipping method;
a premium user gets an order exactly for standard shipping, where the
surcharge makes the total 5 and the Status is "processing", and nil for every
other shipping method, express included. -/
theorem empty_order (orderID : Int) (shippingMethod : String) :
    sumLoop 0 [] = 0 ∧
    ProcessOrder orderID "regular" "credit" "" shippingMethod [] = none ∧
    ((ProcessOrder orderID "premium" "credit" "" shippingMethod []).isSome ↔
      shippingMethod = "standard") ∧
    ProcessOrder orderID "premium" "credit" "" "standard" [] =
      some ⟨orderID, [], "premium", "credit", "", "standard", "processing"⟩ ∧
    (ProcessOrderTrace orderID "premium" "credit" "" "standard" []).total = 5 := by
  have hstd : ProcessOrder orderID "premium" "credit" "" "standard" [] =
      some ⟨orderID, [], "premium", "credit", "", "standard", "processing"⟩ := by
    simp only [ProcessOrder, ProcessOrderTrace, tierBranches, sumLoop]
    norm_num [shippingBlock, finalValidation]
    simp
  refine ⟨rfl, ?_, ?_, hstd, ?_⟩
  · simp [ProcessOrder, ProcessOrderTrace, tierBranches, shippingBlock, finalValidation,
      sumLoop]
  · by_cases hst : shippingMethod = "standard"
    · subst hst
      rw [hstd]
      simp
    · have hnone : ProcessOrder orderID "premium" "credit" "" shippingMethod [] = none := by
        simp only [ProcessOrder, ProcessOrderTrace, tierBranches, sumLoop]
        simp [shippingBlock, finalValidation, hst]
      rw [hnone]
      simp [hst]
  · simp only [ProcessOrderTrace, tierBranches, sumLoop]
    norm_num [shippingBlock]
    simp

set_option maxHeartbeats 1000000 in
/-- C27: an order returned by `ProcessOrder` has UserType "premium" or
"regular" and Status "processing", "pending" or "invalid_code"; its Status is
never empty, "invalid", "guest_order", "invalid_payment" or
"cash_only_for_regular". -/
theorem returned_order_status (orderID : Int)
    (userType paymentMethod discountCode shippingMethod : String) (items : List Item)
    (o : Order)
    (h : ProcessOrder orderID userType paymentMethod discountCode shippingMethod items
      = some o) :
    (o.UserType = "premium" ∨ o.UserType = "regular") ∧
    (o.Status = "processing" ∨ o.Status = "pending" ∨ o.Status = "invalid_code") ∧
    o.Status ≠ "" ∧ o.Status ≠ "invalid" ∧ o.Status ≠ "guest_order" ∧
    o.Status ≠ "invalid_payment" ∧ o.Status ≠ "cash_only_for_regular" := by
  obtain ⟨rfl, htot, hu⟩ := processOrder_eq_some h
  refine ⟨hu, ?_⟩
  have hstatus :
      (ProcessOrderTrace orderID userType paymentMethod discountCode shippingMethod
          items).status = "processing" ∨
      (ProcessOrderTrace orderID userType paymentMethod discountCode shippingMethod
          items).status = "pending" ∨
      (ProcessOrderTrace orderID userType paymentMethod discountCode shippingMethod
          items).status = "invalid_code" := by
    simp only [ProcessOrderTrace, tierBranches] at htot ⊢
    rcases hu with rfl | rfl
    all_goals split_ifs at htot ⊢
    all_goals simp_all [shippingBlock]
  simp only []
  rcases hstatus with hs | hs | hs <;> rw [hs] <;> decide

/-- C27 at the order returned for a regular user paying by credit for one item
priced 10. -/
theorem returned_order_status_witness :
    ("regular" = "premium" ∨ "regular" = "regular") ∧
    ("pending" = "processing" ∨ "pending" = "pending" ∨ "pending" = "invalid_code") ∧
    "pending" ≠ "" ∧ "pending" ≠ "invalid" ∧ "pending" ≠ "guest_order" ∧
    "pending" ≠ "invalid_payment" ∧ "pending" ≠ "cash_only_for_regular" :=
  returned_order_status 7 "regular" "credit" "" "standard" [⟨"Item1", 10⟩]
    ⟨7, [⟨"Item1", 10⟩], "regular", "credit", "", "standard", "pending"⟩ (by
      simp only [ProcessOrder, ProcessOrderTrace, tierBranches, sumLoop_zero]
      repeat (first | norm_num [shippingBlock, finalValidation] | simp))

set_option maxHeartbeats 4000000 in
/-- C28: a discount code never increases the price. For items with
non-negative prices, every user type and payment method, standard or express
shipping and every discount code, the total computed with the code is at most
the total computed with the empty code; in particular when both calls return
an order. -/
theorem discount_never_increases (orderID : Int)
    (userType paymentMethod discountCode shippingMethod : String) (items : List Item)
    (hprice : ∀ it ∈ items, 0 ≤ it.Price)
    (hship : shippingMethod = "standard" ∨ shippingMethod = "express") :
    (ProcessOrderTrace orderID userType paymentMethod discountCode shippingMethod
      items).total ≤
    (ProcessOrderTrace orderID userType paymentMethod "" shippingMethod items).total := by
  have hs := sum_nonneg_of_prices items hprice
  by_cases hc : discountCode = ""
  · rw [hc]
  · simp only [ProcessOrderTrace, tierBranches, sumLoop_zero]
    rcases hship with rfl | rfl
    all_goals simp only [hc, ne_eq, not_true_eq_false, not_false_eq_true, if_true, if_false]
    all_goals split_ifs
    all_goals simp only [shippingBlock]
    all_goals (try split_ifs)
    all_goals (first | linarith | (exfalso; simp_all))

/-- C28 at a premium user paying by credit for six items priced 10 with
standard shipping: the total with SAVE20 is at most the total without code. -/
theorem discount_never_increases_witness :
    (ProcessOrderTrace 1 "premium" "credit" "SAVE20" "standard" (itemsOf 6 10)).total ≤
    (ProcessOrderTrace 1 "premium" "credit" "" "standard" (itemsOf 6 10)).total :=
  discount_never_increases 1 "premium" "credit" "SAVE20" "standard" (itemsOf 6 10)
    (by
      intro it hit
      rw [List.eq_of_mem_replicate hit]
      norm_num)
    (Or.inl rfl)

/-! ## `ValidateUser` -/

set_option maxHeartbeats 4000000 in
/-- The two outcomes of `ValidateUser`: (true, "valid") under the acceptance
condition, false with another message otherwise. -/
theorem validateUser_cases (username password email userType : String) (age : Int)
    (country : String) (P : Bool × String → Prop)
    (hvalid :
      (3 ≤ username.utf8ByteSize ∧ username.utf8ByteSize ≤ 20 ∧
        8 ≤ password.utf8ByteSize ∧ email ≠ "" ∧
        ((userType = "admin" ∧ 21 ≤ age ∧ (country = "US" ∨ country = "UK")) ∨
         (userType = "regular" ∧ 18 ≤ age ∧ country ≠ "") ∨
         (userType ≠ "admin" ∧ userType ≠ "regular" ∧ 13 ≤ age))) → P (true, "valid"))
    (hinvalid :
      ¬ (3 ≤ username.utf8ByteSize ∧ username.utf8ByteSize ≤ 20 ∧
        8 ≤ password.utf8ByteSize ∧ email ≠ "" ∧
        ((userType = "admin" ∧ 21 ≤ age ∧ (country = "US" ∨ country = "UK")) ∨
         (userType = "regular" ∧ 18 ≤ age ∧ country ≠ "") ∨
         (userType ≠ "admin" ∧ userType ≠ "regular" ∧ 13 ≤ age))) →
      ∀ msg : String, msg ≠ "valid" → P (false, msg)) :
    P (ValidateUser username password email userType age country) := by
  delta ValidateUser
  split_ifs with h1 h2 h3 h4 h5 h6 h7 h8 h9 h10 h11 h12 h13
  · exact hvalid ⟨h2, h3, h5, h6, Or.inl ⟨h7, h8, h9⟩⟩
  · exact hinvalid (by simp_all) _ (by decide)
  · exact hinvalid (by rintro ⟨-, -, -, -, h⟩; simp_all; omega) _ (by decide)
  · exact hvalid ⟨h2, h3, h5, h6, Or.inr (Or.inl ⟨h10, h11, h12⟩)⟩
  · exact hinvalid (by simp_all) _ (by decide)
  · exact hinvalid (by rintro ⟨-, -, -, -, h⟩; simp_all; omega) _ (by decide)
  · exact hvalid ⟨h2, h3, h5, h6, Or.inr (Or.inr ⟨h7, h10, h13⟩)⟩
  · exact hinvalid (by rintro ⟨-, -, -, -, h⟩; simp_all; omega) _ (by decide)
  · exact hinvalid (by simp_all) _ (by decide)
  · exact hinvalid (by rintro ⟨-, -, h, -⟩; exact h5 h) _ (by decide)
  · exact hinvalid (by
      rintro ⟨-, -, h, -⟩
      rw [not_not.mp h4] at h
      revert h
      decide) _ (by decide)
  · exact hinvalid (by rintro ⟨-, h, -⟩; exact h3 h) _ (by decide)
  · exact hinvalid (by rintro ⟨h, -⟩; exact h2 h) _ (by decide)
  · exact hinvalid (by
      rintro ⟨h, -⟩
      rw [not_not.mp h1] at h
      revert h
      decide) _ (by decide)

/-- C29: `ValidateUser` returns (true, "valid") exactly when the username is 3
to 20 bytes long, the password at least 8 bytes long, the email non-empty and
the rule of the user type holds (admin: age at least 21 and country "US" or
"UK"; regular: age at least 18 and a non-empty country; any other type: age at
least 13); in every other case it returns false with a message other than
"valid"; so the boolean is true exactly when the message is "valid". -/
theorem validateUser_valid_iff (username password email userType : String) (age : Int)
    (country : String) :
    (ValidateUser username password email userType age country = (true, "valid") ↔
      3 ≤ username.utf8ByteSize ∧ username.utf8ByteSize ≤ 20 ∧
      8 ≤ password.utf8ByteSize ∧ email ≠ "" ∧
      ((userType = "admin" ∧ 21 ≤ age ∧ (country = "US" ∨ country = "UK")) ∨
       (userType = "regular" ∧ 18 ≤ age ∧ country ≠ "") ∨
       (userType ≠ "admin" ∧ userType ≠ "regular" ∧ 13 ≤ age))) ∧
    (ValidateUser username password email userType age country ≠ (true, "valid") →
      (ValidateUser username password email userType age country).1 = false ∧
      (ValidateUser username password email userType age country).2 ≠ "valid") ∧
    ((ValidateUser username password email userType age country).1 = true ↔
      (ValidateUser username password email userType age country).2 = "valid") := by
  apply validateUser_cases username password email userType age country
    (fun r =>
      (r = (true, "valid") ↔
        3 ≤ username.utf8ByteSize ∧ username.utf8ByteSize ≤ 20 ∧
        8 ≤ password.utf8ByteSize ∧ email ≠ "" ∧
        ((userType = "admin" ∧ 21 ≤ age ∧ (country = "US" ∨ country = "UK")) ∨
         (userType = "regular" ∧ 18 ≤ age ∧ country ≠ "") ∨
         (userType ≠ "admin" ∧ userType ≠ "regular" ∧ 13 ≤ age))) ∧
      (r ≠ (true, "valid") → r.1 = false ∧ r.2 ≠ "valid") ∧
      (r.1 = true ↔ r.2 = "valid"))
  · intro h
    exact ⟨⟨fun _ => h, fun _ => rfl⟩, fun hne => absurd rfl hne, ⟨fun _ => rfl, fun _ => rfl⟩⟩
  · intro h msg hmsg
    refine ⟨⟨fun he => ?_, fun hc => absurd hc h⟩, fun _ => ⟨rfl, hmsg⟩, ⟨fun ht => ?_, fun hv => absurd hv hmsg⟩⟩
    · simp at he
    · simp at ht

end Spaghetti

namespace DeadCode

/-! ## `DataProcessor.Process` -/

theorem doubleLoopFrom_eq (data pre : List Int) :
    doubleLoopFrom pre.length data (pre ++ List.replicate data.length 0) =
      some (pre ++ data.map (fun v => Spaghetti.wrapInt (v * 2))) := by
  induction data generalizing pre with
  | nil => simp [doubleLoopFrom]
  | cons v rest ih =>
    have hset : setIndex (pre ++ List.replicate (v :: rest).length 0) pre.length
        (Spaghetti.wrapInt (v * 2)) =
        some ((pre ++ [Spaghetti.wrapInt (v * 2)]) ++ List.replicate rest.length 0) := by
      simp [setIndex, List.replicate_succ]
    have hlen : pre.length + 1 = (pre ++ [Spaghetti.wrapInt (v * 2)]).length := by simp
    simp only [doubleLoopFrom, hset]
    rw [hlen, ih]
    simp

/-- On a non-empty slice `Process` returns the slice of the doubled elements,
doubled in Go `int` arithmetic. -/
theorem process_nonempty (dp : DataProcessor) (v : Int) (rest : List Int) :
    dp.Process (v :: rest) = some ((v :: rest).map (fun x => Spaghetti.wrapInt (x * 2))) := by
  have h := doubleLoopFrom_eq (v :: rest) []
  simp only [List.length_nil, List.nil_append] at h
  unfold DataProcessor.Process
  rw [h]
  simp [getIndex]

/-- C30, the code at the failing input: on the empty slice `Process` fails
with an index out of range at `result[0]`, for every receiver; on the slice
1, 2, 3 it returns 2, 4, 6. -/
theorem process_empty_panics (dp : DataProcessor) :
    dp.Process [] = none ∧ dp.Process [1, 2, 3] = some [2, 4, 6] := by
  constructor
  · rfl
  · rw [process_nonempty]
    decide

end DeadCode

namespace SpaghettiFloat

open Float64

/-! ## `ProcessOrder` with `float64` arithmetic: auxiliary facts -/

/-- An order is returned only at the last `return`, with the status local as
its Status, a total greater than 0 and a premium or regular user. -/
theorem processOrder_some_inv {orderID : Int}
    {userType paymentMethod discountCode shippingMethod : String} {items : List Item}
    {o : Order}
    (h : ProcessOrder orderID userType paymentMethod discountCode shippingMethod items
      = some o) :
    o =
      { ID := orderID
        Items := items
        UserType := userType
        PaymentMethod := paymentMethod
        DiscountCode := discountCode
        ShippingMethod := shippingMethod
        Status := (ProcessOrderTrace orderID userType paymentMethod discountCode
          shippingMethod items).status } ∧
    Float64.gt (ProcessOrderTrace orderID userType paymentMethod discountCode shippingMethod
      items).total (Float64.ofInt 0) = true ∧
    (userType = "premium" ∨ userType = "regular") := by
  unfold ProcessOrder ProcessOrderTrace at h
  unfold ProcessOrderTrace
  cases hf : tierBranches userType paymentMethod discountCode shippingMethod items with
  | returned t st => rw [hf] at h; simp at h
  | fallthrough t st =>
    rw [hf] at h
    simp only [finalValidation] at h ⊢
    split_ifs at h with h1 h2 h3 h4
    all_goals simp_all

/-! ## Valid requests -/

/-- C4: for a premium user paying by credit for more than 5 items with code
SAVE20 and express shipping, the total computed is exactly the product
`total * 0.8` of the price sum, with no shipping surcharge added, and when
that total is greater than 0 the returned order has Status "processing". -/
theorem premium_bulk_save20_express (orderID : Int) (items : List Item)
    (hlen : 5 < items.length) :
    (ProcessOrderTrace orderID "premium" "credit" "SAVE20" "express" items).total =
      Float64.mul (sumLoop Float64.zero items) Float64.c0_8 ∧
    (Float64.gt (ProcessOrderTrace orderID "premium" "credit" "SAVE20" "express" items).total
        (Float64.ofInt 0) = true →
      ProcessOrder orderID "premium" "credit" "SAVE20" "express" items =
        some
          { ID := orderID
            Items := items
            UserType := "premium"
            PaymentMethod := "credit"
            DiscountCode := "SAVE20"
            ShippingMethod := "express"
            Status := "processing" }) := by
  simp only [ProcessOrder, ProcessOrderTrace, tierBranches]
  simp [shippingBlock, finalValidation, hlen]

/-- C4 at six items priced 10 (scenario 1 of the specification): the price sum
is 60, the total is 48 and the order returned has Status "processing". -/
theorem premium_bulk_save20_express_witness :
    5 < (itemsOf 6 (ofInt 10)).length ∧
    sumLoop Float64.zero (itemsOf 6 (ofInt 10)) = ofInt 60 ∧
    (ProcessOrderTrace 1 "premium" "credit" "SAVE20" "express"
      (itemsOf 6 (ofInt 10))).total = ofInt 48 ∧
    ProcessOrder 1 "premium" "credit" "SAVE20" "express" (itemsOf 6 (ofInt 10)) =
      some
        { ID := 1
          Items := itemsOf 6 (ofInt 10)
          UserType := "premium"
          PaymentMethod := "credit"
          DiscountCode := "SAVE20"
          ShippingMethod := "express"
          Status := "processing" } :=
  ⟨by decide, by decide, by decide,
    (premium_bulk_save20_express 1 (itemsOf 6 (ofInt 10)) (by decide)).2 (by decide)⟩

/-- C5, refuted as stated: a regular user paying by credit for two items
priced 10, no code, standard shipping (subtotal 20, greater than 0 and not
above 50): the total computed is 20, not 20 + 5 = 25. -/
theorem regular_pending_standard_total_20 :
    (itemsOf 2 (ofInt 10)).length ≤ 3 ∧
    sumLoop Float64.zero (itemsOf 2 (ofInt 10)) = ofInt 20 ∧
    Float64.gt (ofInt 20) (ofInt 0) = true ∧
    Float64.gt (ofInt 20) (ofInt 50) = false ∧
    (ProcessOrderTrace 1 "regular" "credit" "" "standard" (itemsOf 2 (ofInt 10))).total
      = ofInt 20 ∧
    Float64.add (ofInt 20) (ofInt 5) = ofInt 25 ∧
    (ProcessOrderTrace 1 "regular" "credit" "" "standard" (itemsOf 2 (ofInt 10))).total
      ≠ ofInt 25 := by
  decide

/-- C5, amended: for a regular user paying by credit with no discount code,
standard shipping, at most 3 items and a subtotal greater than 0,
`ProcessOrder` returns an order with Status "pending" and the total it
computed is the subtotal, the price sum of the loop: no surcharge is added. -/
theorem regular_pending_standard (orderID : Int) (items : List Item)
    (hlen : items.length ≤ 3)
    (hpos : Float64.gt (sumLoop Float64.zero items) (Float64.ofInt 0) = true) :
    ProcessOrder orderID "regular" "credit" "" "standard" items =
      some
        { ID := orderID
          Items := items
          UserType := "regular"
          PaymentMethod := "credit"
          DiscountCode := ""
          ShippingMethod := "standard"
          Status := "pending" } ∧
    (ProcessOrderTrace orderID "regular" "credit" "" "standard" items).total =
      sumLoop Float64.zero items := by
  have h3 : ¬ 3 < items.length := by omega
  simp only [ProcessOrder, ProcessOrderTrace, tierBranches]
  simp [shippingBlock, finalValidation, h3, hpos]

/-- C5 amended, at two items priced 10 (scenario 2 of the specification): the
order is pending and the total is the subtotal 20. -/
theorem regular_pending_standard_witness :
    ProcessOrder 2 "regular" "credit" "" "standard" (itemsOf 2 (ofInt 10)) =
      some
        { ID := 2
          Items := itemsOf 2 (ofInt 10)
          UserType := "regular"
          PaymentMethod := "credit"
          DiscountCode := ""
          ShippingMethod := "standard"
          Status := "pending" } ∧
    (ProcessOrderTrace 2 "regular" "credit" "" "standard" (itemsOf 2 (ofInt 10))).total =
      sumLoop Float64.zero (itemsOf 2 (ofInt 10)) :=
  regular_pending_standard 2 (itemsOf 2 (ofInt 10)) (by decide) (by decide)

/-! ## Shipping -/

/-- C7, refuted as stated: a regular user paying by credit for three items
priced 10 with code SAVE10 and standard shipping gets a pending order; the
discounted subtotal is 27, not above 50, and the total is 27, not
27 + 5 = 32. -/
theorem standard_pending_no_surcharge :
    ProcessOrder 1 "regular" "credit" "SAVE10" "standard" (itemsOf 3 (ofInt 10)) =
      some
        { ID := 1
          Items := itemsOf 3 (ofInt 10)
          UserType := "regular"
          PaymentMethod := "credit"
          DiscountCode := "SAVE10"
          ShippingMethod := "standard"
          Status := "pending" } ∧
    discountedSubtotal "regular" "credit" "SAVE10" (itemsOf 3 (ofInt 10)) = ofInt 27 ∧
    Float64.gt (ofInt 27) (ofInt 50) = false ∧
    Float64.add (ofInt 27) (ofInt 5) = ofInt 32 ∧
    (ProcessOrderTrace 1 "regular" "credit" "SAVE10" "standard"
      (itemsOf 3 (ofInt 10))).total = ofInt 27 ∧
    (ProcessOrderTrace 1 "regular" "credit" "SAVE10" "standard"
      (itemsOf 3 (ofInt 10))).total ≠ ofInt 32 := by
  decide

set_option maxHeartbeats 1000000 in
/-- C7, amended: for every request with standard shipping for which
`ProcessOrder` returns an order with Status "processing", the total computed
is the discounted subtotal when that is greater than 50, and the discounted
subtotal plus 5 otherwise. -/
theorem standard_shipping_processing (orderID : Int)
    (userType paymentMethod discountCode : String) (items : List Item) (o : Order)
    (h : ProcessOrder orderID userType paymentMethod discountCode "standard" items = some o)
    (hs : o.Status = "processing") :
    (ProcessOrderTrace orderID userType paymentMethod discountCode "standard" items).total =
      if Float64.gt (discountedSubtotal userType paymentMethod discountCode items)
          (Float64.ofInt 50) = true
      then discountedSubtotal userType paymentMethod discountCode items
      else Float64.add (discountedSubtotal userType paymentMethod discountCode items)
        (Float64.ofInt 5) := by
  simp only [ProcessOrder, ProcessOrderTrace, tierBranches, discountedSubtotal,
    appliedFactor] at h ⊢
  split_ifs at h ⊢ <;> simp_all [shippingBlock, finalValidation]
  all_goals (obtain ⟨_, rfl⟩ := h; simp at hs)

/-- C7 amended, at a regular user paying by credit for four items priced 10:
the order is processing and the total is 40 + 5 = 45. -/
theorem standard_shipping_processing_witness :
    (ProcessOrderTrace 1 "regular" "credit" "" "standard" (itemsOf 4 (ofInt 10))).total =
      ofInt 45 := by
  have h := standard_shipping_processing 1 "regular" "credit" "" (itemsOf 4 (ofInt 10))
    ⟨1, itemsOf 4 (ofInt 10), "regular", "credit", "", "standard", "processing"⟩
    (by decide) rfl
  rw [h]
  decide

/-! ## Status assignment -/

/-- C9, refuted as stated: no threshold H on the final total decides the
status of the premium/paypal orders with one item. One item priced 125 with
code SAVE20 gives a processing order with final total 100; one item priced 100
without code gives a pending order with the same final total 100. -/
theorem no_paypal_threshold_on_final_total :
    ¬ ∃ H : Float64, ∀ (orderID : Int) (discountCode shippingMethod product : String)
        (price : Float64) (o : Order),
        ProcessOrder orderID "premium" "paypal" discountCode shippingMethod
          [⟨product, price⟩] = some o →
        (o.Status = "processing" ↔
          Float64.gt (ProcessOrderTrace orderID "premium" "paypal" discountCode
            shippingMethod [⟨product, price⟩]).total H = true) ∧
        (¬ Float64.gt (ProcessOrderTrace orderID "premium" "paypal" discountCode
            shippingMethod [⟨product, price⟩]).total H = true → o.Status = "pending") := by
  rintro ⟨H, hH⟩
  have ho1 : ProcessOrder 1 "premium" "paypal" "SAVE20" "standard" [⟨"Item1", ofInt 125⟩] =
      some ⟨1, [⟨"Item1", ofInt 125⟩], "premium", "paypal", "SAVE20", "standard",
        "processing"⟩ := by decide
  have ht1 : (ProcessOrderTrace 1 "premium" "paypal" "SAVE20" "standard"
      [⟨"Item1", ofInt 125⟩]).total = ofInt 100 := by decide
  have ho2 : ProcessOrder 1 "premium" "paypal" "" "standard" [⟨"Item1", ofInt 100⟩] =
      some ⟨1, [⟨"Item1", ofInt 100⟩], "premium", "paypal", "", "standard", "pending"⟩ := by
    decide
  have ht2 : (ProcessOrderTrace 1 "premium" "paypal" "" "standard"
      [⟨"Item1", ofInt 100⟩]).total = ofInt 100 := by decide
  have h1 := (hH 1 "SAVE20" "standard" "Item1" (ofInt 125) _ ho1).1
  have h2 := (hH 1 "" "standard" "Item1" (ofInt 100) _ ho2).1
  rw [ht1] at h1
  rw [ht2] at h2
  exact absurd (h2.mpr (h1.mp rfl)) (by decide)

set_option maxHeartbeats 1000000 in
/-- C9, amended: every premium/paypal order that `ProcessOrder` returns, with
one item or any item list, is processing exactly when the price sum of the
loop, before discount and shipping, is greater than 100, and pending
otherwise, whatever the discount code. -/
theorem paypal_high_value (orderID : Int) (discountCode shippingMethod : String)
    (items : List Item) (o : Order)
    (h : ProcessOrder orderID "premium" "paypal" discountCode shippingMethod items = some o) :
    (o.Status = "processing" ↔
      Float64.gt (sumLoop Float64.zero items) (Float64.ofInt 100) = true) ∧
    (¬ Float64.gt (sumLoop Float64.zero items) (Float64.ofInt 100) = true →
      o.Status = "pending") := by
  obtain ⟨rfl, -, -⟩ := processOrder_some_inv h
  simp only [ProcessOrderTrace, tierBranches]
  simp
  split_ifs with h1 h2 <;> simp [h1]

/-- C9 amended, at one item priced 125 with code SAVE20: the price sum 125 is
greater than 100 and the order returned is processing. -/
theorem paypal_high_value_witness :
    ProcessOrder 1 "premium" "paypal" "SAVE20" "standard" [⟨"Item1", ofInt 125⟩] =
      some ⟨1, [⟨"Item1", ofInt 125⟩], "premium", "paypal", "SAVE20", "standard",
        "processing"⟩ ∧
    ("processing" = "processing" ↔
      Float64.gt (sumLoop Float64.zero [⟨"Item1", ofInt 125⟩]) (Float64.ofInt 100) = true) ∧
    (¬ Float64.gt (sumLoop Float64.zero [⟨"Item1", ofInt 125⟩]) (Float64.ofInt 100) = true →
      "processing" = "pending") := by
  have ho : ProcessOrder 1 "premium" "paypal" "SAVE20" "standard" [⟨"Item1", ofInt 125⟩] =
      some ⟨1, [⟨"Item1", ofInt 125⟩], "premium", "paypal", "SAVE20", "standard",
        "processing"⟩ := by decide
  exact ⟨ho, paypal_high_value 1 "SAVE20" "standard" [⟨"Item1", ofInt 125⟩] _ ho⟩

/-! ## Discount scope -/

set_option maxHeartbeats 1000000 in
/-- Wherever the price loop runs, the total at the return is the discounted
subtotal, or the discounted subtotal plus a surcharge of 5 or 20. -/
theorem total_eq_discounted_add (orderID : Int)
    (userType paymentMethod discountCode shippingMethod : String) (items : List Item)
    (hpay : paymentMethod = "credit" ∨ (userType = "premium" ∧ paymentMethod = "paypal")) :
    (ProcessOrderTrace orderID userType paymentMethod discountCode shippingMethod
        items).total = discountedSubtotal userType paymentMethod discountCode items ∨
    (ProcessOrderTrace orderID userType paymentMethod discountCode shippingMethod
        items).total =
      Float64.add (discountedSubtotal userType paymentMethod discountCode items)
        (Float64.ofInt 5) ∨
    (ProcessOrderTrace orderID userType paymentMethod discountCode shippingMethod
        items).total =
      Float64.add (discountedSubtotal userType paymentMethod discountCode items)
        (Float64.ofInt 20) := by
  simp only [ProcessOrderTrace, tierBranches, discountedSubtotal, appliedFactor]
  rcases hpay with rfl | ⟨rfl, rfl⟩
  all_goals split_ifs
  all_goals simp only [shippingBlock]
  all_goals (try split_ifs)
  all_goals
    first
    | exact Or.inl rfl
    | exact Or.inr (Or.inl rfl)
    | exact Or.inr (Or.inr rfl)
    | exact Or.inl trivial
    | (exfalso; simp_all)

/-- C10, refuted as stated: no per-tier set of codes decides whether a code has
its constant applied. For a premium user paying by credit, SAVE10 is applied
to six items priced 10 (total 60 * 0.9 + 5 = 59) and not applied to one item
priced 10 (total 10). -/
theorem discount_not_tier_scoped :
    (ProcessOrderTrace 1 "premium" "credit" "SAVE10" "standard"
      (itemsOf 6 (ofInt 10))).total = ofInt 59 ∧
    (ProcessOrderTrace 1 "premium" "credit" "SAVE10" "standard"
      (itemsOf 1 (ofInt 10))).total = ofInt 10 ∧
    ¬ ∃ S : String → String → Prop,
      ∀ (userType paymentMethod discountCode : String) (items : List Item),
        ((userType = "premium" ∧ (paymentMethod = "credit" ∨ paymentMethod = "paypal")) ∨
         (userType = "regular" ∧ (paymentMethod = "credit" ∨ paymentMethod = "cash")) ∨
         (userType ≠ "premium" ∧ userType ≠ "regular" ∧ paymentMethod = "credit")) →
        discountCode ≠ "" →
        (((appliedFactor userType paymentMethod discountCode items).isSome = true ∧
            appliedFactor userType paymentMethod discountCode items =
              codeFactor discountCode) ↔
          S userType discountCode) := by
  refine ⟨by decide, by decide, ?_⟩
  rintro ⟨S, hS⟩
  have h6 := hS "premium" "credit" "SAVE10" (itemsOf 6 (ofInt 10))
    (Or.inl ⟨rfl, Or.inl rfl⟩) (by decide)
  have h1 := hS "premium" "credit" "SAVE10" (itemsOf 1 (ofInt 10))
    (Or.inl ⟨rfl, Or.inl rfl⟩) (by decide)
  have a6 : (appliedFactor "premium" "credit" "SAVE10" (itemsOf 6 (ofInt 10))).isSome = true ∧
      appliedFactor "premium" "credit" "SAVE10" (itemsOf 6 (ofInt 10)) =
        codeFactor "SAVE10" := by decide
  have a1 : ¬ ((appliedFactor "premium" "credit" "SAVE10"
        (itemsOf 1 (ofInt 10))).isSome = true ∧
      appliedFactor "premium" "credit" "SAVE10" (itemsOf 1 (ofInt 10)) =
        codeFactor "SAVE10") := by decide
  exact a1 (h1.mpr (h6.mp a6))

set_option maxHeartbeats 1000000 in
/-- C10, amended: whether a non-empty discount code has its constant applied
depends on the tier and also on the payment method, the item count and the
price sum. For a request with a tier-valid payment method the constant of the
code is applied exactly for premium/credit with SAVE20, premium/credit with
SAVE10 and more than 5 items, premium/paypal with SAVE20 and a price sum
greater than 100, and regular/credit with SAVE10; for premium and regular
paying by credit the status is "invalid_code" exactly when no constant is
applied; and unless the payment is cash the total is the discounted subtotal,
alone or plus a surcharge of 5 or 20. -/
theorem discount_application (orderID : Int)
    (userType paymentMethod discountCode shippingMethod : String) (items : List Item)
    (hne : discountCode ≠ "")
    (hpay : (userType = "premium" ∧ (paymentMethod = "credit" ∨ paymentMethod = "paypal")) ∨
            (userType = "regular" ∧ (paymentMethod = "credit" ∨ paymentMethod = "cash")) ∨
            (userType ≠ "premium" ∧ userType ≠ "regular" ∧ paymentMethod = "credit")) :
    (((appliedFactor userType paymentMethod discountCode items).isSome = true ∧
        appliedFactor userType paymentMethod discountCode items = codeFactor discountCode) ↔
      (userType = "premium" ∧ paymentMethod = "credit" ∧
        (discountCode = "SAVE20" ∨ (discountCode = "SAVE10" ∧ 5 < items.length))) ∨
      (userType = "premium" ∧ paymentMethod = "paypal" ∧ discountCode = "SAVE20" ∧
        Float64.gt (sumLoop Float64.zero items) (Float64.ofInt 100) = true) ∨
      (userType = "regular" ∧ paymentMethod = "credit" ∧ discountCode = "SAVE10")) ∧
    ((userType = "premium" ∨ userType = "regular") → paymentMethod = "credit" →
      ((ProcessOrderTrace orderID userType paymentMethod discountCode shippingMethod
          items).status = "invalid_code" ↔
        ¬ ((appliedFactor userType paymentMethod discountCode items).isSome = true ∧
          appliedFactor userType paymentMethod discountCode items =
            codeFactor discountCode))) ∧
    (paymentMethod ≠ "cash" →
      (ProcessOrderTrace orderID userType paymentMethod discountCode shippingMethod
          items).total = discountedSubtotal userType paymentMethod discountCode items ∨
      (ProcessOrderTrace orderID userType paymentMethod discountCode shippingMethod
          items).total =
        Float64.add (discountedSubtotal userType paymentMethod discountCode items)
          (Float64.ofInt 5) ∨
      (ProcessOrderTrace orderID userType paymentMethod discountCode shippingMethod
          items).total =
        Float64.add (discountedSubtotal userType paymentMethod discountCode items)
          (Float64.ofInt 20)) := by
  refine ⟨?_, ?_, ?_⟩
  · simp only [codeFactor, appliedFactor]
    rcases hpay with ⟨rfl, rfl | rfl⟩ | ⟨rfl, rfl | rfl⟩ | ⟨h1, h2, rfl⟩
    all_goals split_ifs
    all_goals simp_all
  · rintro hu rfl
    simp only [ProcessOrderTrace, tierBranches, codeFactor, appliedFactor]
    rcases hu with rfl | rfl
    all_goals split_ifs
    all_goals simp_all
  · intro hc
    apply total_eq_discounted_add
    rcases hpay with ⟨rfl, rfl | rfl⟩ | ⟨rfl, rfl | rfl⟩ | ⟨h1, h2, rfl⟩ <;> simp_all

/-- C10 amended, at a premium user paying by credit for six items priced 10
with code SAVE10: the constant 0.9 of the code is the one applied. -/
theorem discount_application_witness :
    (appliedFactor "premium" "credit" "SAVE10" (itemsOf 6 (ofInt 10))).isSome = true ∧
    appliedFactor "premium" "credit" "SAVE10" (itemsOf 6 (ofInt 10)) = codeFactor "SAVE10" :=
  (discount_application 1 "premium" "credit" "SAVE10" "standard" (itemsOf 6 (ofInt 10))
    (by decide) (Or.inl ⟨rfl, Or.inl rfl⟩)).1.mpr
    (Or.inl ⟨rfl, rfl, Or.inr ⟨rfl, by decide⟩⟩)

/-! ## Rounding at work -/

set_option maxRecDepth 100000 in
/-- Four calls where `float64` rounding decides the outcome. Premium/paypal
with prices 100 and 2^-50: the price sum is 100, not greater than 100, and the
order is pending. Regular/credit with prices 1e16, 1 and -1e16: the price sum
is 0 and nil is returned. Premium/credit, six items priced 1, SAVE20, express:
the total is 4.800000000000001. Regular/credit, SAVE10, standard, prices
55.55555555555556, 0, 0, 0: the discounted subtotal is 50, not greater than
50, and the total is 55. -/
theorem rounding_examples :
    sumLoop Float64.zero [⟨"a", ofInt 100⟩, ⟨"b", finite false 1 (-50)⟩] = ofInt 100 ∧
    ProcessOrder 1 "premium" "paypal" "" "standard"
        [⟨"a", ofInt 100⟩, ⟨"b", finite false 1 (-50)⟩] =
      some ⟨1, [⟨"a", ofInt 100⟩, ⟨"b", finite false 1 (-50)⟩], "premium", "paypal", "",
        "standard", "pending"⟩ ∧
    sumLoop Float64.zero
        [⟨"a", ofInt 10000000000000000⟩, ⟨"b", ofInt 1⟩, ⟨"c", ofInt (-10000000000000000)⟩] =
      Float64.zero ∧
    ProcessOrder 1 "regular" "credit" "" "standard"
        [⟨"a", ofInt 10000000000000000⟩, ⟨"b", ofInt 1⟩, ⟨"c", ofInt (-10000000000000000)⟩] =
      none ∧
    (ProcessOrderTrace 1 "premium" "credit" "SAVE20" "express" (itemsOf 6 (ofInt 1))).total =
      finite false 1351079888211149 (-48) ∧
    discountedSubtotal "regular" "credit" "SAVE10"
        [⟨"a", finite false 3909374676536889 (-46)⟩, ⟨"b", ofInt 0⟩, ⟨"c", ofInt 0⟩,
          ⟨"d", ofInt 0⟩] = ofInt 50 ∧
    (ProcessOrderTrace 1 "regular" "credit" "SAVE10" "standard"
        [⟨"a", finite false 3909374676536889 (-46)⟩, ⟨"b", ofInt 0⟩, ⟨"c", ofInt 0⟩,
          ⟨"d", ofInt 0⟩]).total = ofInt 55 := by
  decide

end SpaghettiFloat
